import Mathlib

/-!
# Verification of the mupen64-movie-parser binary codec

A shallow embedding of the `.m64` movie codec:

* `src/controller.rs` — `Flags.from_u32` / `Flags.to_u32` (controller-status
  bitfield) and the `Input` ↔ `u32` conversions (per-frame input word);
* `src/m64.rs` — `M64.from_u8_array` (the nom-based decoder) and
  `M64.write_m64` (the serializer), together with `M64ParseError` and
  `MovieStartType` exactly as defined in that file.

Byte buffers are modelled as `List Nat`, where a well-formed buffer has every
entry `< 256`.  Machine integers are `Nat` (with explicit `% 2^w` where the
Rust code truncates); the signed 8-bit axes are `Int` values produced by an
explicit two's-complement reinterpretation (`toI8`), mirroring Rust's `as i8`
casts.  Fallible parsing returns `Except M64ParseError M64`.
-/

namespace Mupen64

/-- Little-endian byte composition: models nom's `le_u16`/`le_u32` (and the
single-byte `u8` reader) applied to an already-taken chunk of bytes. -/
def fromLe (c : List Nat) : Nat := c.foldr (fun b acc => b + 256 * acc) 0

/-- Little-endian byte decomposition of a value into `n` bytes: models
`u16::to_le_bytes` / `u32::to_le_bytes` (and a single `u8` byte for `n = 1`). -/
def toLe : Nat → Nat → List Nat
  | 0, _ => []
  | n + 1, v => v % 256 :: toLe n (v / 256)

/-! ## Controller status flags (`src/controller.rs`) -/

/-- The controller status flags (`Flags` in `controller.rs`). -/
structure Flags where
  controller_present : Bool
  has_mempak : Bool
  has_rumblepak : Bool
deriving DecidableEq

/-- `fn nth_bit(value: u32, n: usize) -> bool { value.shr(n) & 0x01 != 0 }` -/
def nth_bit (value : Nat) (n : Nat) : Bool := value >>> n &&& 0x01 != 0

/-- `Flags::from_u32`: slot `i` reads bits `i`, `i+4`, `i+8`; the source
initialises an all-false `[Flags; 4]` and fills each slot from the word. -/
def Flags.from_u32 (value : Nat) : List Flags :=
  (List.range 4).map fun i =>
    { controller_present := nth_bit value i
      has_mempak := nth_bit value (i + 4)
      has_rumblepak := nth_bit value (i + 8) }

/-- `Flags::to_u32`: OR together the three shifted bits of every slot. -/
def Flags.to_u32 (controllers : List Flags) : Nat :=
  controllers.enum.foldl
    (fun value p =>
      value ||| (p.2.controller_present.toNat <<< p.1)
            ||| (p.2.has_mempak.toNat <<< (p.1 + 4))
            ||| (p.2.has_rumblepak.toNat <<< (p.1 + 8)))
    0

/-! ## Per-frame input samples (`src/controller.rs`) -/

/-- A single frame of controller input (`Input` in `controller.rs`). -/
structure Input where
  up_dpad : Bool
  down_dpad : Bool
  left_dpad : Bool
  right_dpad : Bool
  start : Bool
  z_button : Bool
  a_button : Bool
  b_button : Bool
  right_shoulder : Bool
  left_shoulder : Bool
  up_cbutton : Bool
  down_cbutton : Bool
  left_cbutton : Bool
  right_cbutton : Bool
  reserved_1 : Bool
  reserved_2 : Bool
  x_axis : Int
  y_axis : Int
deriving DecidableEq

/-- Two's-complement reinterpretation of the low byte: models Rust's
`as i8` cast of a `u32` value. -/
def toI8 (n : Nat) : Int :=
  if n % 256 < 128 then ((n % 256 : Nat) : Int) else ((n % 256 : Nat) : Int) - 256

/-- Byte extraction of a signed value: models Rust's `(x as u32) & 0xFF`
for `x : i8` (sign-extend to 32 bits, then mask the low byte). -/
def toU8 (i : Int) : Nat := (i % 256).toNat

/-- `impl From<u32> for Input`: peel 16 button bits from the low half by
repeated shift-and-mask, then take the two remaining bytes as signed axes. -/
def Input.fromU32 (value : Nat) : Input :=
  let right_dpad := value &&& 0x01 != 0
  let value := value >>> 1
  let left_dpad := value &&& 0x01 != 0
  let value := value >>> 1
  let down_dpad := value &&& 0x01 != 0
  let value := value >>> 1
  let up_dpad := value &&& 0x01 != 0
  let value := value >>> 1
  let start := value &&& 0x01 != 0
  let value := value >>> 1
  let z_button := value &&& 0x01 != 0
  let value := value >>> 1
  let b_button := value &&& 0x01 != 0
  let value := value >>> 1
  let a_button := value &&& 0x01 != 0
  let value := value >>> 1
  let right_cbutton := value &&& 0x01 != 0
  let value := value >>> 1
  let left_cbutton := value &&& 0x01 != 0
  let value := value >>> 1
  let down_cbutton := value &&& 0x01 != 0
  let value := value >>> 1
  let up_cbutton := value &&& 0x01 != 0
  let value := value >>> 1
  let right_shoulder := value &&& 0x01 != 0
  let value := value >>> 1
  let left_shoulder := value &&& 0x01 != 0
  let value := value >>> 1
  let reserved_1 := value &&& 0x01 != 0
  let value := value >>> 1
  let reserved_2 := value &&& 0x01 != 0
  let value := value >>> 1
  let x_axis := toI8 (value &&& 0xFF)
  let value := value >>> 8
  let y_axis := toI8 value
  { up_dpad, down_dpad, left_dpad, right_dpad, start, z_button, a_button,
    b_button, right_shoulder, left_shoulder, up_cbutton, down_cbutton,
    left_cbutton, right_cbutton, reserved_1, reserved_2, x_axis, y_axis }

/-- `impl From<Input> for u32`: OR each button bit into its fixed position
and place the two axis bytes at bit offsets 16 and 24. -/
def Input.toU32 (input : Input) : Nat :=
  input.right_dpad.toNat
    ||| input.left_dpad.toNat <<< 1
    ||| input.down_dpad.toNat <<< 2
    ||| input.up_dpad.toNat <<< 3
    ||| input.start.toNat <<< 4
    ||| input.z_button.toNat <<< 5
    ||| input.b_button.toNat <<< 6
    ||| input.a_button.toNat <<< 7
    ||| input.right_cbutton.toNat <<< 8
    ||| input.left_cbutton.toNat <<< 9
    ||| input.down_cbutton.toNat <<< 10
    ||| input.up_cbutton.toNat <<< 11
    ||| input.right_shoulder.toNat <<< 12
    ||| input.left_shoulder.toNat <<< 13
    ||| input.reserved_1.toNat <<< 14
    ||| input.reserved_2.toNat <<< 15
    ||| toU8 input.x_axis <<< 16
    ||| toU8 input.y_axis <<< 24

/-! ## The M64 file model (`src/m64.rs`) -/

/-- All possible movie start types (`MovieStartType` in `m64.rs`). -/
inductive MovieStartType where
  | SnapShot
  | PowerOn
  | Eeprom
deriving DecidableEq

/-- strum's generated `MovieStartType::from_repr`: the discriminants are
`SnapShot = 1`, `PowerOn = 2`, `Eeprom = 4`; anything else is rejected
(`TryFrom<u16>` then maps the rejection to a parse error). -/
def MovieStartType.fromRepr (v : Nat) : Option MovieStartType :=
  if v = 1 then some .SnapShot
  else if v = 2 then some .PowerOn
  else if v = 4 then some .Eeprom
  else none

/-- The `self.movie_start_type as u16` cast used by the serializer. -/
def MovieStartType.toU16 : MovieStartType → Nat
  | .SnapShot => 1
  | .PowerOn => 2
  | .Eeprom => 4

/-- `impl Default for MovieStartType { fn default() -> Self { PowerOn } }` -/
instance : Inhabited MovieStartType := ⟨.PowerOn⟩

/-- All possible M64 parsing errors, as declared in `m64.rs` itself (the
variant carrying an `io::Error` is omitted: `from_u8_array` never builds it).
Note that `ReservedNotZero` and `InvalidString` carry no payload here. -/
inductive M64ParseError where
  | InvalidFileSignature (sig : List Nat)
  | InvalidVersion (version : Nat)
  | ReservedNotZero
  | NotEnoughData (expected actual : Nat)
  | InvalidMovieStartType
  | InvalidString
deriving DecidableEq

/-- Validity of a byte sequence as UTF-8: models `std::str::from_utf8`
succeeding, following the RFC 3629 well-formedness table Rust implements.
The decoder only ever stores the raw bytes of a region this accepts. -/
def isUtf8Cont (b : Nat) : Bool := 0x80 ≤ b && b ≤ 0xBF

def isValidUtf8 : List Nat → Bool
  | [] => true
  | b :: rest =>
    if b ≤ 0x7F then isValidUtf8 rest
    else if 0xC2 ≤ b && b ≤ 0xDF then
      match rest with
      | b1 :: rest1 => isUtf8Cont b1 && isValidUtf8 rest1
      | [] => false
    else if b = 0xE0 then
      match rest with
      | b1 :: b2 :: rest2 =>
        (0xA0 ≤ b1 && b1 ≤ 0xBF) && isUtf8Cont b2 && isValidUtf8 rest2
      | _ => false
    else if (0xE1 ≤ b && b ≤ 0xEC) || b = 0xEE || b = 0xEF then
      match rest with
      | b1 :: b2 :: rest2 => isUtf8Cont b1 && isUtf8Cont b2 && isValidUtf8 rest2
      | _ => false
    else if b = 0xED then
      match rest with
      | b1 :: b2 :: rest2 =>
        (0x80 ≤ b1 && b1 ≤ 0x9F) && isUtf8Cont b2 && isValidUtf8 rest2
      | _ => false
    else if b = 0xF0 then
      match rest with
      | b1 :: b2 :: b3 :: rest3 =>
        (0x90 ≤ b1 && b1 ≤ 0xBF) && isUtf8Cont b2 && isUtf8Cont b3 &&
          isValidUtf8 rest3
      | _ => false
    else if 0xF1 ≤ b && b ≤ 0xF3 then
      match rest with
      | b1 :: b2 :: b3 :: rest3 =>
        isUtf8Cont b1 && isUtf8Cont b2 && isUtf8Cont b3 && isValidUtf8 rest3
      | _ => false
    else if b = 0xF4 then
      match rest with
      | b1 :: b2 :: b3 :: rest3 =>
        (0x80 ≤ b1 && b1 ≤ 0x8F) && isUtf8Cont b2 && isUtf8Cont b3 &&
          isValidUtf8 rest3
      | _ => false
    else false

/-- The M64 file (`M64` in `m64.rs`).  `ArrayString<N>` fields are modelled
as the raw byte lists the decoder stores (an `ArrayString` built from a
parsed `str` keeps every byte of the region, zero padding included). -/
structure M64 where
  uid : Nat
  vi_frames : Nat
  input_frames : Nat
  rerecords : Nat
  fps : Nat
  controller_count : Nat
  movie_start_type : MovieStartType
  controller_flags : List Flags
  rom_internal_name : List Nat
  rom_crc_32 : Nat
  rom_country_code : Nat
  video_plugin : List Nat
  sound_plugin : List Nat
  input_plugin : List Nat
  rsp_plugin : List Nat
  author : List Nat
  description : List Nat
  inputs : List Input
deriving DecidableEq

/-- One fixed-width parsing step of `from_u8_array`: take `n` bytes (where a
short read produces the `NotEnoughData`-style error this particular call
site builds from the remaining length, matching nom's `err.input`), then run
the field's validation/conversion on the taken chunk. -/
def pfield {α : Type} (n : Nat) (onShort : Nat → M64ParseError)
    (f : List Nat → Except M64ParseError α) (data : List Nat) :
    Except M64ParseError (α × List Nat) :=
  if data.length < n then .error (onShort data.length)
  else
    match f (data.take n) with
    | .ok v => .ok (v, data.drop n)
    | .error e => .error e

/-- `many0(map_opt(le_u32, |i| Some(Input::from(i))))`: greedily decode
4-byte little-endian words into input samples; stop (without failing) at the
first point where fewer than 4 bytes remain, returning the leftover bytes. -/
def parseInputs : List Nat → List Input × List Nat
  | b0 :: b1 :: b2 :: b3 :: rest =>
    let p := parseInputs rest
    (Input.fromU32 (fromLe [b0, b1, b2, b3]) :: p.1, p.2)
  | rest => ([], rest)

/-- The file magic `[0x4D, 0x36, 0x34, 0x1A]` (`b"M64\x1A"`). -/
def magic : List Nat := [0x4D, 0x36, 0x34, 0x1A]

/-- `M64::from_u8_array`: the sequential nom parser of `m64.rs`, with the
exact per-call-site error mapping of that function (including its quirks:
the first header tuple and the flags tuple report `expected: 4` whatever
sub-parser ran short, and the author/description call sites report
`expected: 64` although they take 222 and 256 bytes). -/
def M64.from_u8_array (data : List Nat) : Except M64ParseError M64 := do
  let (_, data) ← pfield 4 (.NotEnoughData 4)
    (fun c => if c = magic then .ok () else .error (.InvalidFileSignature c))
    data
  let (_, data) ← pfield 4 (.NotEnoughData 4)
    (fun c => if fromLe c = 3 then .ok () else .error (.InvalidVersion (fromLe c)))
    data
  let (uid, data) ← pfield 4 (.NotEnoughData 4) (fun c => .ok (fromLe c)) data
  let (vi_frame_count, data) ← pfield 4 (.NotEnoughData 4)
    (fun c => .ok (fromLe c)) data
  let (rerecord_count, data) ← pfield 4 (.NotEnoughData 4)
    (fun c => .ok (fromLe c)) data
  let (fps, data) ← pfield 1 (.NotEnoughData 4) (fun c => .ok (fromLe c)) data
  let (controller_count, data) ← pfield 1 (.NotEnoughData 4)
    (fun c => .ok (fromLe c)) data
  let (_, data) ← pfield 2 (.NotEnoughData 2)
    (fun c => if c.all (· = 0) then .ok () else .error .ReservedNotZero) data
  let (input_frame_count, data) ← pfield 4 (.NotEnoughData 4)
    (fun c => .ok (fromLe c)) data
  let (movie_start_type, data) ← pfield 2 (.NotEnoughData 2)
    (fun c => (MovieStartType.fromRepr (fromLe c)).elim
      (.error .InvalidMovieStartType) .ok) data
  let (_, data) ← pfield 2 (.NotEnoughData 4)
    (fun c => if c.all (· = 0) then .ok () else .error .ReservedNotZero) data
  let (controller_flags, data) ← pfield 4 (.NotEnoughData 4)
    (fun c => .ok (Flags.from_u32 (fromLe c))) data
  let (_, data) ← pfield 160 (.NotEnoughData 4)
    (fun c => if c.all (· = 0) then .ok () else .error .ReservedNotZero) data
  let (rom_internal_name, data) ← pfield 32 (.NotEnoughData 32)
    (fun c => if isValidUtf8 c then .ok c else .error .InvalidString) data
  let (rom_crc_32, data) ← pfield 4 (.NotEnoughData 4)
    (fun c => .ok (fromLe c)) data
  let (rom_country_code, data) ← pfield 2 (.NotEnoughData 2)
    (fun c => .ok (fromLe c)) data
  let (_, data) ← pfield 56 (.NotEnoughData 56)
    (fun c => if c.all (· = 0) then .ok () else .error .ReservedNotZero) data
  let (video_plugin, data) ← pfield 64 (.NotEnoughData 64)
    (fun c => if isValidUtf8 c then .ok c else .error .InvalidString) data
  let (sound_plugin, data) ← pfield 64 (.NotEnoughData 64)
    (fun c => if isValidUtf8 c then .ok c else .error .InvalidString) data
  let (input_plugin, data) ← pfield 64 (.NotEnoughData 64)
    (fun c => if isValidUtf8 c then .ok c else .error .InvalidString) data
  let (rsp_plugin, data) ← pfield 64 (.NotEnoughData 64)
    (fun c => if isValidUtf8 c then .ok c else .error .InvalidString) data
  let (author, data) ← pfield 222 (.NotEnoughData 64)
    (fun c => if isValidUtf8 c then .ok c else .error .InvalidString) data
  let (description, data) ← pfield 256 (.NotEnoughData 64)
    (fun c => if isValidUtf8 c then .ok c else .error .InvalidString) data
  let p := parseInputs data
  if p.2.isEmpty then
    .ok { uid
          vi_frames := vi_frame_count
          rerecords := rerecord_count
          fps
          controller_count
          input_frames := input_frame_count
          movie_start_type
          controller_flags
          rom_internal_name
          rom_crc_32
          rom_country_code
          video_plugin
          sound_plugin
          input_plugin
          rsp_plugin
          author
          description
          inputs := p.1 }
  else
    .error (.NotEnoughData 4 p.2.length)

/-- `M64::write_m64`: serialize every field in file order.  Text fields are
emitted via `as_bytes`, i.e. exactly the stored bytes, with no padding. -/
def M64.write_m64 (m : M64) : List Nat :=
  magic ++ toLe 4 3 ++ toLe 4 m.uid ++ toLe 4 m.vi_frames ++
  toLe 4 m.rerecords ++ toLe 1 m.fps ++ toLe 1 m.controller_count ++
  List.replicate 2 0 ++ toLe 4 m.input_frames ++
  toLe 2 m.movie_start_type.toU16 ++ List.replicate 2 0 ++
  toLe 4 (Flags.to_u32 m.controller_flags) ++ List.replicate 160 0 ++
  m.rom_internal_name ++ toLe 4 m.rom_crc_32 ++ toLe 2 m.rom_country_code ++
  List.replicate 56 0 ++ m.video_plugin ++ m.sound_plugin ++ m.input_plugin ++
  m.rsp_plugin ++ m.author ++ m.description ++
  m.inputs.foldr (fun i acc => toLe 4 (Input.toU32 i) ++ acc) []

/-! ## Concrete values used by the claims -/

/-- A fully canonical M64 value: all-zero numeric fields, default movie
start type (power-on), no controllers plugged in, zero-filled text fields at
full capacity, and no input samples. -/
def defaultM64 : M64 where
  uid := 0
  vi_frames := 0
  input_frames := 0
  rerecords := 0
  fps := 0
  controller_count := 0
  movie_start_type := default
  controller_flags := Flags.from_u32 0
  rom_internal_name := List.replicate 32 0
  rom_crc_32 := 0
  rom_country_code := 0
  video_plugin := List.replicate 64 0
  sound_plugin := List.replicate 64 0
  input_plugin := List.replicate 64 0
  rsp_plugin := List.replicate 64 0
  author := List.replicate 222 0
  description := List.replicate 256 0
  inputs := []

/-- The 1024-byte serialized form of `defaultM64`: a valid header. -/
def defaultHeaderBytes : List Nat := defaultM64.write_m64

/-- A valid header whose 2-byte movie-start-type field (offset 28) is
replaced by the little-endian encoding of `v`. -/
def mstBuf (v : Nat) : List Nat :=
  defaultHeaderBytes.take 28 ++ toLe 2 v ++ defaultHeaderBytes.drop 30

/-- A header that is valid except that the byte at offset 0x16 — inside the
first reserved region — is `1` instead of `0`. -/
def reservedBadBuf : List Nat :=
  defaultHeaderBytes.take 22 ++ [1] ++ defaultHeaderBytes.drop 23

/-- A header that is valid except that byte 33 (the second byte of the
controller-flags word at offset 0x20) is `0x10`, i.e. the flags word is
`0x1000`: bit 12, outside the 12 meaningful flag bits. -/
def flagsBadBuf : List Nat :=
  defaultHeaderBytes.take 33 ++ [0x10] ++ defaultHeaderBytes.drop 34

/-- A header that is valid except that byte 196 (the first byte of the
`rom_internal_name` text field at offset 0xC4) is `0xFF`, which can start no
well-formed UTF-8 sequence. -/
def utf8BadBuf : List Nat :=
  defaultHeaderBytes.take 196 ++ [0xFF] ++ defaultHeaderBytes.drop 197

/-- The input sample designated by the repo's `inputs_parse` test: A button
held, X = -10, Y = 55. -/
def sampleInput : Input where
  up_dpad := false
  down_dpad := false
  left_dpad := false
  right_dpad := false
  start := false
  z_button := false
  a_button := true
  b_button := false
  right_shoulder := false
  left_shoulder := false
  up_cbutton := false
  down_cbutton := false
  left_cbutton := false
  right_cbutton := false
  reserved_1 := false
  reserved_2 := false
  x_axis := -10
  y_axis := 55

/-- An M64 value whose text fields are all shorter than their fixed
capacity (here: empty). -/
def emptyTextM64 : M64 :=
  { defaultM64 with
      rom_internal_name := []
      video_plugin := []
      sound_plugin := []
      input_plugin := []
      rsp_plugin := []
      author := []
      description := [] }

/-- Everything a successful `from_u8_array` run establishes, phrased at
explicit byte offsets of the input buffer. -/
structure DecodeFacts (data : List Nat) (m : M64) : Prop where
  len_sig : 4 ≤ data.length
  sig : data.take 4 = magic
  len_ver : 4 ≤ (data.drop 4).length
  ver : fromLe ((data.drop 4).take 4) = 3
  len_uid : 4 ≤ (data.drop 8).length
  uid : m.uid = fromLe ((data.drop 8).take 4)
  len_vi : 4 ≤ (data.drop 12).length
  vi : m.vi_frames = fromLe ((data.drop 12).take 4)
  len_rr : 4 ≤ (data.drop 16).length
  rr : m.rerecords = fromLe ((data.drop 16).take 4)
  len_fps : 1 ≤ (data.drop 20).length
  fps : m.fps = fromLe ((data.drop 20).take 1)
  len_cc : 1 ≤ (data.drop 21).length
  cc : m.controller_count = fromLe ((data.drop 21).take 1)
  len_z1 : 2 ≤ (data.drop 22).length
  z1 : (((data.drop 22).take 2).all fun x => decide (x = 0)) = true
  len_ifr : 4 ≤ (data.drop 24).length
  ifr : m.input_frames = fromLe ((data.drop 24).take 4)
  len_mst : 2 ≤ (data.drop 28).length
  mst : MovieStartType.fromRepr (fromLe ((data.drop 28).take 2)) = some m.movie_start_type
  len_z2 : 2 ≤ (data.drop 30).length
  z2 : (((data.drop 30).take 2).all fun x => decide (x = 0)) = true
  len_fl : 4 ≤ (data.drop 32).length
  fl : m.controller_flags = Flags.from_u32 (fromLe ((data.drop 32).take 4))
  len_z3 : 160 ≤ (data.drop 36).length
  z3 : (((data.drop 36).take 160).all fun x => decide (x = 0)) = true
  len_nm : 32 ≤ (data.drop 196).length
  nmUtf : isValidUtf8 ((data.drop 196).take 32) = true
  nm : m.rom_internal_name = (data.drop 196).take 32
  len_crc : 4 ≤ (data.drop 228).length
  crc : m.rom_crc_32 = fromLe ((data.drop 228).take 4)
  len_cco : 2 ≤ (data.drop 232).length
  cco : m.rom_country_code = fromLe ((data.drop 232).take 2)
  len_z4 : 56 ≤ (data.drop 234).length
  z4 : (((data.drop 234).take 56).all fun x => decide (x = 0)) = true
  len_vp : 64 ≤ (data.drop 290).length
  vpUtf : isValidUtf8 ((data.drop 290).take 64) = true
  vp : m.video_plugin = (data.drop 290).take 64
  len_sp : 64 ≤ (data.drop 354).length
  spUtf : isValidUtf8 ((data.drop 354).take 64) = true
  sp : m.sound_plugin = (data.drop 354).take 64
  len_ip : 64 ≤ (data.drop 418).length
  ipUtf : isValidUtf8 ((data.drop 418).take 64) = true
  ip : m.input_plugin = (data.drop 418).take 64
  len_rp : 64 ≤ (data.drop 482).length
  rpUtf : isValidUtf8 ((data.drop 482).take 64) = true
  rp : m.rsp_plugin = (data.drop 482).take 64
  len_au : 222 ≤ (data.drop 546).length
  auUtf : isValidUtf8 ((data.drop 546).take 222) = true
  au : m.author = (data.drop 546).take 222
  len_de : 256 ≤ (data.drop 768).length
  deUtf : isValidUtf8 ((data.drop 768).take 256) = true
  de : m.description = (data.drop 768).take 256
  ins : m.inputs = (parseInputs (data.drop 1024)).1
  insRest : (parseInputs (data.drop 1024)).2 = []

/-! ## Basic lemmas -/

theorem fromLe_nil : fromLe [] = 0 := rfl

theorem fromLe_cons (b : Nat) (c : List Nat) :
    fromLe (b :: c) = b + 256 * fromLe c := rfl

theorem toLe_length (n v : Nat) : (toLe n v).length = n := by
  induction n generalizing v with
  | zero => rfl
  | succ n ih => simp [toLe, ih]

theorem toLe_fromLe (c : List Nat) (h : ∀ b ∈ c, b < 256) :
    toLe c.length (fromLe c) = c := by
  induction c with
  | nil => rfl
  | cons b c ih =>
    have hb : b < 256 := h b (by simp)
    simp only [List.length_cons, toLe, fromLe_cons]
    have h1 : (b + 256 * fromLe c) % 256 = b := by omega
    have h2 : (b + 256 * fromLe c) / 256 = fromLe c := by omega
    rw [h1, h2, ih (fun x hx => h x (by simp [hx]))]

theorem fromLe_lt (c : List Nat) (h : ∀ b ∈ c, b < 256) :
    fromLe c < 256 ^ c.length := by
  induction c with
  | nil => simp [fromLe_nil]
  | cons b c ih =>
    have hb : b < 256 := h b (by simp)
    have hc : fromLe c < 256 ^ c.length := ih (fun x hx => h x (by simp [hx]))
    have hp : 0 < 256 ^ c.length := pow_pos (by norm_num) _
    have hm : 256 * fromLe c ≤ 256 * (256 ^ c.length - 1) :=
      Nat.mul_le_mul_left _ (by omega)
    simp only [fromLe_cons, List.length_cons, pow_succ]
    omega

/-! ### Bit-arithmetic toolbox -/

theorem or_shift (k c : Nat) {a x : Nat} (hc : c = 2 ^ k) (h : a < c) :
    a ||| x <<< k = c * x + a := by
  subst hc
  rw [Nat.shiftLeft_eq, Nat.or_comm, mul_comm x]
  exact (Nat.mul_add_lt_is_or h x).symm

theorem bne_toNat (n : Nat) : ((n &&& 1) != 0).toNat = n % 2 := by
  rw [Nat.and_one_is_mod]
  rcases Nat.mod_two_eq_zero_or_one n with h | h <;> simp [h]

theorem and_255 (n : Nat) : n &&& 255 = n % 256 := by
  have h := Nat.and_pow_two_sub_one_eq_mod n 8
  norm_num at h
  exact h

theorem toU8_toI8 (n : Nat) : toU8 (toI8 n) = n % 256 := by
  unfold toU8 toI8
  split <;> omega

theorem shr_one (n : Nat) : n >>> 1 = n / 2 := by
  rw [Nat.shiftRight_eq_div_pow]

theorem shr_eight (n : Nat) : n >>> 8 = n / 256 := by
  rw [Nat.shiftRight_eq_div_pow]

set_option maxHeartbeats 1600000 in
theorem orchain (v0 v1 v2 v3 v4 v5 v6 v7 v8 v9 v10 v11 v12 v13 v14 v15
    vx vy : Nat)
    (h0 : v0 ≤ 1) (h1 : v1 ≤ 1) (h2 : v2 ≤ 1) (h3 : v3 ≤ 1) (h4 : v4 ≤ 1)
    (h5 : v5 ≤ 1) (h6 : v6 ≤ 1) (h7 : v7 ≤ 1) (h8 : v8 ≤ 1) (h9 : v9 ≤ 1)
    (h10 : v10 ≤ 1) (h11 : v11 ≤ 1) (h12 : v12 ≤ 1) (h13 : v13 ≤ 1)
    (h14 : v14 ≤ 1) (h15 : v15 ≤ 1) (hx : vx < 256) (hy : vy < 256) :
    v0 ||| v1 <<< 1 ||| v2 <<< 2 ||| v3 <<< 3 ||| v4 <<< 4 ||| v5 <<< 5
      ||| v6 <<< 6 ||| v7 <<< 7 ||| v8 <<< 8 ||| v9 <<< 9 ||| v10 <<< 10
      ||| v11 <<< 11 ||| v12 <<< 12 ||| v13 <<< 13 ||| v14 <<< 14
      ||| v15 <<< 15 ||| vx <<< 16 ||| vy <<< 24 =
    16777216 * vy + (65536 * vx + (32768 * v15 + (16384 * v14 + (8192 * v13 +
      (4096 * v12 + (2048 * v11 + (1024 * v10 + (512 * v9 + (256 * v8 +
      (128 * v7 + (64 * v6 + (32 * v5 + (16 * v4 + (8 * v3 + (4 * v2 +
      (2 * v1 + v0)))))))))))))))) := by
  have e1 : v0 ||| v1 <<< 1 = 2 * v1 + v0 :=
    or_shift 1 2 (by norm_num) (by omega)
  rw [e1]; clear e1
  have e2 : 2 * v1 + v0 ||| v2 <<< 2 = 4 * v2 + (2 * v1 + v0) :=
    or_shift 2 4 (by norm_num) (by omega)
  rw [e2]; clear e2
  have e3 : 4 * v2 + (2 * v1 + v0) ||| v3 <<< 3 =
      8 * v3 + (4 * v2 + (2 * v1 + v0)) :=
    or_shift 3 8 (by norm_num) (by omega)
  rw [e3]; clear e3
  have e4 : 8 * v3 + (4 * v2 + (2 * v1 + v0)) ||| v4 <<< 4 =
      16 * v4 + (8 * v3 + (4 * v2 + (2 * v1 + v0))) :=
    or_shift 4 16 (by norm_num) (by omega)
  rw [e4]; clear e4
  have e5 : 16 * v4 + (8 * v3 + (4 * v2 + (2 * v1 + v0))) ||| v5 <<< 5 =
      32 * v5 + (16 * v4 + (8 * v3 + (4 * v2 + (2 * v1 + v0)))) :=
    or_shift 5 32 (by norm_num) (by omega)
  rw [e5]; clear e5
  have e6 : 32 * v5 + (16 * v4 + (8 * v3 + (4 * v2 + (2 * v1 + v0))))
      ||| v6 <<< 6 =
      64 * v6 + (32 * v5 + (16 * v4 + (8 * v3 + (4 * v2 + (2 * v1 + v0))))) :=
    or_shift 6 64 (by norm_num) (by omega)
  rw [e6]; clear e6
  have e7 : 64 * v6 + (32 * v5 + (16 * v4 + (8 * v3 + (4 * v2 +
      (2 * v1 + v0))))) ||| v7 <<< 7 =
      128 * v7 + (64 * v6 + (32 * v5 + (16 * v4 + (8 * v3 + (4 * v2 +
      (2 * v1 + v0)))))) :=
    or_shift 7 128 (by norm_num) (by omega)
  rw [e7]; clear e7
  have e8 : 128 * v7 + (64 * v6 + (32 * v5 + (16 * v4 + (8 * v3 + (4 * v2 +
      (2 * v1 + v0)))))) ||| v8 <<< 8 =
      256 * v8 + (128 * v7 + (64 * v6 + (32 * v5 + (16 * v4 + (8 * v3 +
      (4 * v2 + (2 * v1 + v0))))))) :=
    or_shift 8 256 (by norm_num) (by omega)
  rw [e8]; clear e8
  have e9 : 256 * v8 + (128 * v7 + (64 * v6 + (32 * v5 + (16 * v4 + (8 * v3 +
      (4 * v2 + (2 * v1 + v0))))))) ||| v9 <<< 9 =
      512 * v9 + (256 * v8 + (128 * v7 + (64 * v6 + (32 * v5 + (16 * v4 +
      (8 * v3 + (4 * v2 + (2 * v1 + v0)))))))) :=
    or_shift 9 512 (by norm_num) (by omega)
  rw [e9]; clear e9
  have e10 : 512 * v9 + (256 * v8 + (128 * v7 + (64 * v6 + (32 * v5 +
      (16 * v4 + (8 * v3 + (4 * v2 + (2 * v1 + v0)))))))) ||| v10 <<< 10 =
      1024 * v10 + (512 * v9 + (256 * v8 + (128 * v7 + (64 * v6 + (32 * v5 +
      (16 * v4 + (8 * v3 + (4 * v2 + (2 * v1 + v0))))))))) :=
    or_shift 10 1024 (by norm_num) (by omega)
  rw [e10]; clear e10
  have e11 : 1024 * v10 + (512 * v9 + (256 * v8 + (128 * v7 + (64 * v6 +
      (32 * v5 + (16 * v4 + (8 * v3 + (4 * v2 + (2 * v1 + v0)))))))))
      ||| v11 <<< 11 =
      2048 * v11 + (1024 * v10 + (512 * v9 + (256 * v8 + (128 * v7 +
      (64 * v6 + (32 * v5 + (16 * v4 + (8 * v3 + (4 * v2 +
      (2 * v1 + v0)))))))))) :=
    or_shift 11 2048 (by norm_num) (by omega)
  rw [e11]; clear e11
  have e12 : 2048 * v11 + (1024 * v10 + (512 * v9 + (256 * v8 + (128 * v7 +
      (64 * v6 + (32 * v5 + (16 * v4 + (8 * v3 + (4 * v2 + (2 * v1 +
      v0)))))))))) ||| v12 <<< 12 =
      4096 * v12 + (2048 * v11 + (1024 * v10 + (512 * v9 + (256 * v8 +
      (128 * v7 + (64 * v6 + (32 * v5 + (16 * v4 + (8 * v3 + (4 * v2 +
      (2 * v1 + v0))))))))))) :=
    or_shift 12 4096 (by norm_num) (by omega)
  rw [e12]; clear e12
  have e13 : 4096 * v12 + (2048 * v11 + (1024 * v10 + (512 * v9 + (256 * v8 +
      (128 * v7 + (64 * v6 + (32 * v5 + (16 * v4 + (8 * v3 + (4 * v2 +
      (2 * v1 + v0))))))))))) ||| v13 <<< 13 =
      8192 * v13 + (4096 * v12 + (2048 * v11 + (1024 * v10 + (512 * v9 +
      (256 * v8 + (128 * v7 + (64 * v6 + (32 * v5 + (16 * v4 + (8 * v3 +
      (4 * v2 + (2 * v1 + v0)))))))))))) :=
    or_shift 13 8192 (by norm_num) (by omega)
  rw [e13]; clear e13
  have e14 : 8192 * v13 + (4096 * v12 + (2048 * v11 + (1024 * v10 +
      (512 * v9 + (256 * v8 + (128 * v7 + (64 * v6 + (32 * v5 + (16 * v4 +
      (8 * v3 + (4 * v2 + (2 * v1 + v0)))))))))))) ||| v14 <<< 14 =
      16384 * v14 + (8192 * v13 + (4096 * v12 + (2048 * v11 + (1024 * v10 +
      (512 * v9 + (256 * v8 + (128 * v7 + (64 * v6 + (32 * v5 + (16 * v4 +
      (8 * v3 + (4 * v2 + (2 * v1 + v0))))))))))))) :=
    or_shift 14 16384 (by norm_num) (by omega)
  rw [e14]; clear e14
  have e15 : 16384 * v14 + (8192 * v13 + (4096 * v12 + (2048 * v11 +
      (1024 * v10 + (512 * v9 + (256 * v8 + (128 * v7 + (64 * v6 + (32 * v5 +
      (16 * v4 + (8 * v3 + (4 * v2 + (2 * v1 + v0))))))))))))) ||| v15 <<< 15 =
      32768 * v15 + (16384 * v14 + (8192 * v13 + (4096 * v12 + (2048 * v11 +
      (1024 * v10 + (512 * v9 + (256 * v8 + (128 * v7 + (64 * v6 + (32 * v5 +
      (16 * v4 + (8 * v3 + (4 * v2 + (2 * v1 + v0)))))))))))))) :=
    or_shift 15 32768 (by norm_num) (by omega)
  rw [e15]; clear e15
  have e16 : 32768 * v15 + (16384 * v14 + (8192 * v13 + (4096 * v12 +
      (2048 * v11 + (1024 * v10 + (512 * v9 + (256 * v8 + (128 * v7 +
      (64 * v6 + (32 * v5 + (16 * v4 + (8 * v3 + (4 * v2 + (2 * v1 +
      v0)))))))))))))) ||| vx <<< 16 =
      65536 * vx + (32768 * v15 + (16384 * v14 + (8192 * v13 + (4096 * v12 +
      (2048 * v11 + (1024 * v10 + (512 * v9 + (256 * v8 + (128 * v7 +
      (64 * v6 + (32 * v5 + (16 * v4 + (8 * v3 + (4 * v2 + (2 * v1 +
      v0))))))))))))))) :=
    or_shift 16 65536 (by norm_num) (by omega)
  rw [e16]; clear e16
  have e17 : 65536 * vx + (32768 * v15 + (16384 * v14 + (8192 * v13 +
      (4096 * v12 + (2048 * v11 + (1024 * v10 + (512 * v9 + (256 * v8 +
      (128 * v7 + (64 * v6 + (32 * v5 + (16 * v4 + (8 * v3 + (4 * v2 +
      (2 * v1 + v0))))))))))))))) ||| vy <<< 24 =
      16777216 * vy + (65536 * vx + (32768 * v15 + (16384 * v14 + (8192 * v13 +
      (4096 * v12 + (2048 * v11 + (1024 * v10 + (512 * v9 + (256 * v8 +
      (128 * v7 + (64 * v6 + (32 * v5 + (16 * v4 + (8 * v3 + (4 * v2 +
      (2 * v1 + v0)))))))))))))))) :=
    or_shift 24 16777216 (by norm_num) (by omega)
  rw [e17]

set_option maxHeartbeats 1600000 in
/-- Core round-trip for the per-frame input word: re-encoding a decoded
32-bit word reproduces it exactly. -/
theorem input_roundtrip (w : Nat) (hw : w < 4294967296) :
    Input.toU32 (Input.fromU32 w) = w := by
  simp only [Input.fromU32, Input.toU32]
  simp only [bne_toNat, and_255, toU8_toI8, shr_one, shr_eight,
    Nat.div_div_eq_div_mul]
  norm_num
  have e := orchain (w % 2) (w / 2 % 2) (w / 4 % 2) (w / 8 % 2) (w / 16 % 2)
    (w / 32 % 2) (w / 64 % 2) (w / 128 % 2) (w / 256 % 2) (w / 512 % 2)
    (w / 1024 % 2) (w / 2048 % 2) (w / 4096 % 2) (w / 8192 % 2)
    (w / 16384 % 2) (w / 32768 % 2) (w / 65536 % 256)
    (w / 16777216 % 256)
    (by omega) (by omega) (by omega) (by omega) (by omega) (by omega)
    (by omega) (by omega) (by omega) (by omega) (by omega) (by omega)
    (by omega) (by omega) (by omega) (by omega) (by omega) (by omega)
  rw [e]
  have s1 : 2 * (w / 2 % 2) + w % 2 = w % 4 := by omega
  rw [s1]
  have s2 : 4 * (w / 4 % 2) + w % 4 = w % 8 := by omega
  rw [s2]
  have s3 : 8 * (w / 8 % 2) + w % 8 = w % 16 := by omega
  rw [s3]
  have s4 : 16 * (w / 16 % 2) + w % 16 = w % 32 := by omega
  rw [s4]
  have s5 : 32 * (w / 32 % 2) + w % 32 = w % 64 := by omega
  rw [s5]
  have s6 : 64 * (w / 64 % 2) + w % 64 = w % 128 := by omega
  rw [s6]
  have s7 : 128 * (w / 128 % 2) + w % 128 = w % 256 := by omega
  rw [s7]
  have s8 : 256 * (w / 256 % 2) + w % 256 = w % 512 := by omega
  rw [s8]
  have s9 : 512 * (w / 512 % 2) + w % 512 = w % 1024 := by omega
  rw [s9]
  have s10 : 1024 * (w / 1024 % 2) + w % 1024 = w % 2048 := by omega
  rw [s10]
  have s11 : 2048 * (w / 2048 % 2) + w % 2048 = w % 4096 := by omega
  rw [s11]
  have s12 : 4096 * (w / 4096 % 2) + w % 4096 = w % 8192 := by omega
  rw [s12]
  have s13 : 8192 * (w / 8192 % 2) + w % 8192 = w % 16384 := by omega
  rw [s13]
  have s14 : 16384 * (w / 16384 % 2) + w % 16384 = w % 32768 := by omega
  rw [s14]
  have s15 : 32768 * (w / 32768 % 2) + w % 32768 = w % 65536 := by omega
  rw [s15]
  have sx : 65536 * (w / 65536 % 256) + w % 65536 = w % 16777216 := by omega
  rw [sx]
  have sy : 16777216 * (w / 16777216 % 256) + w % 16777216 = w := by omega
  rw [sy]

/-! ## Parser-level lemmas -/

theorem fromLe_toLe (n v : Nat) : fromLe (toLe n v) = v % 256 ^ n := by
  induction n generalizing v with
  | zero => simp [toLe, fromLe_nil, Nat.mod_one]
  | succ n ih =>
    rw [toLe, fromLe_cons, ih, pow_succ', Nat.mod_mul]

theorem foldr_inputs_length (l : List Input) :
    (l.foldr (fun i acc => toLe 4 (Input.toU32 i) ++ acc) []).length =
      4 * l.length := by
  induction l with
  | nil => rfl
  | cons i l ih =>
    simp only [List.foldr_cons, List.length_append, toLe_length, ih,
      List.length_cons]
    omega

theorem except_bind_ok {α β : Type} {x : Except M64ParseError α}
    {f : α → Except M64ParseError β} {b : β} :
    x >>= f = .ok b ↔ ∃ a, x = .ok a ∧ f a = .ok b := by
  cases x with
  | error e => simp [Bind.bind, Except.bind]
  | ok a => simp [Bind.bind, Except.bind]

theorem pfield_ok {α : Type} {n : Nat} {onShort : Nat → M64ParseError}
    {f : List Nat → Except M64ParseError α} {data : List Nat} {v : α}
    {rest : List Nat} :
    pfield n onShort f data = .ok (v, rest) ↔
      n ≤ data.length ∧ f (data.take n) = .ok v ∧ rest = data.drop n := by
  unfold pfield
  split
  next h =>
    constructor
    · intro hx; cases hx
    · rintro ⟨h1, -, -⟩; omega
  next h =>
    cases hf : f (data.take n) with
    | error e => simp [hf]
    | ok a =>
      simp only [hf, Except.ok.injEq, Prod.mk.injEq]
      constructor
      · rintro ⟨h1, h2⟩; exact ⟨by omega, h1, h2.symm⟩
      · rintro ⟨-, h1, h2⟩
        exact ⟨h1, h2.symm⟩

theorem pfield_consume {α : Type} (n : Nat) (onShort : Nat → M64ParseError)
    (f : List Nat → Except M64ParseError α) (c : List Nat) {rest : List Nat}
    {v : α} (hn : c.length = n) (hf : f c = .ok v) :
    pfield n onShort f (c ++ rest) = .ok (v, rest) := by
  subst hn
  unfold pfield
  rw [if_neg (by simp only [List.length_append]; omega), List.take_left,
    List.drop_left, hf]

theorem pfield_consume_error {α : Type} (n : Nat)
    (onShort : Nat → M64ParseError) (f : List Nat → Except M64ParseError α)
    (c : List Nat) {rest : List Nat} {e : M64ParseError} (hn : c.length = n)
    (hf : f c = .error e) :
    pfield n onShort f (c ++ rest) = .error e := by
  subst hn
  unfold pfield
  rw [if_neg (by simp only [List.length_append]; omega), List.take_left, hf]

/-! ## Controller-status algebra -/

theorem nth_bit_toNat (w k : Nat) : (nth_bit w k).toNat = w / 2 ^ k % 2 := by
  unfold nth_bit
  rw [bne_toNat, Nat.shiftRight_eq_div_pow]

theorem flags_to_u32_sum (f0 f1 f2 f3 : Flags) :
    Flags.to_u32 [f0, f1, f2, f3] =
      2048 * f3.has_rumblepak.toNat + (1024 * f2.has_rumblepak.toNat + (512 * f1.has_rumblepak.toNat + (256 * f0.has_rumblepak.toNat + (128 * f3.has_mempak.toNat + (64 * f2.has_mempak.toNat + (32 * f1.has_mempak.toNat + (16 * f0.has_mempak.toNat + (8 * f3.controller_present.toNat + (4 * f2.controller_present.toNat + (2 * f1.controller_present.toNat + (f0.controller_present.toNat))))))))))) := by
  have b0 : f0.controller_present.toNat ≤ 1 := Bool.toNat_le _
  have b1 : f1.controller_present.toNat ≤ 1 := Bool.toNat_le _
  have b2 : f2.controller_present.toNat ≤ 1 := Bool.toNat_le _
  have b3 : f3.controller_present.toNat ≤ 1 := Bool.toNat_le _
  have b4 : f0.has_mempak.toNat ≤ 1 := Bool.toNat_le _
  have b5 : f1.has_mempak.toNat ≤ 1 := Bool.toNat_le _
  have b6 : f2.has_mempak.toNat ≤ 1 := Bool.toNat_le _
  have b7 : f3.has_mempak.toNat ≤ 1 := Bool.toNat_le _
  have b8 : f0.has_rumblepak.toNat ≤ 1 := Bool.toNat_le _
  have b9 : f1.has_rumblepak.toNat ≤ 1 := Bool.toNat_le _
  have b10 : f2.has_rumblepak.toNat ≤ 1 := Bool.toNat_le _
  have b11 : f3.has_rumblepak.toNat ≤ 1 := Bool.toNat_le _
  unfold Flags.to_u32
  simp only [List.enum, List.enumFrom, List.foldl, Nat.zero_or,
    Nat.shiftLeft_zero]
  norm_num
  trans (f0.controller_present.toNat
    ||| f1.controller_present.toNat <<< 1
    ||| f2.controller_present.toNat <<< 2
    ||| f3.controller_present.toNat <<< 3
    ||| f0.has_mempak.toNat <<< 4
    ||| f1.has_mempak.toNat <<< 5
    ||| f2.has_mempak.toNat <<< 6
    ||| f3.has_mempak.toNat <<< 7
    ||| f0.has_rumblepak.toNat <<< 8
    ||| f1.has_rumblepak.toNat <<< 9
    ||| f2.has_rumblepak.toNat <<< 10
    ||| f3.has_rumblepak.toNat <<< 11)
  · ac_rfl
  · have e1 : f0.controller_present.toNat ||| f1.controller_present.toNat <<< 1 =
        2 * f1.controller_present.toNat + (f0.controller_present.toNat) :=
      or_shift 1 2 (by norm_num) (by omega)
    rw [e1]; clear e1
    have e2 : 2 * f1.controller_present.toNat + (f0.controller_present.toNat) ||| f2.controller_present.toNat <<< 2 =
        4 * f2.controller_present.toNat + (2 * f1.controller_present.toNat + (f0.controller_present.toNat)) :=
      or_shift 2 4 (by norm_num) (by omega)
    rw [e2]; clear e2
    have e3 : 4 * f2.controller_present.toNat + (2 * f1.controller_present.toNat + (f0.controller_present.toNat)) ||| f3.controller_present.toNat <<< 3 =
        8 * f3.controller_present.toNat + (4 * f2.controller_present.toNat + (2 * f1.controller_present.toNat + (f0.controller_present.toNat))) :=
      or_shift 3 8 (by norm_num) (by omega)
    rw [e3]; clear e3
    have e4 : 8 * f3.controller_present.toNat + (4 * f2.controller_present.toNat + (2 * f1.controller_present.toNat + (f0.controller_present.toNat))) ||| f0.has_mempak.toNat <<< 4 =
        16 * f0.has_mempak.toNat + (8 * f3.controller_present.toNat + (4 * f2.controller_present.toNat + (2 * f1.controller_present.toNat + (f0.controller_present.toNat)))) :=
      or_shift 4 16 (by norm_num) (by omega)
    rw [e4]; clear e4
    have e5 : 16 * f0.has_mempak.toNat + (8 * f3.controller_present.toNat + (4 * f2.controller_present.toNat + (2 * f1.controller_present.toNat + (f0.controller_present.toNat)))) ||| f1.has_mempak.toNat <<< 5 =
        32 * f1.has_mempak.toNat + (16 * f0.has_mempak.toNat + (8 * f3.controller_present.toNat + (4 * f2.controller_present.toNat + (2 * f1.controller_present.toNat + (f0.controller_present.toNat))))) :=
      or_shift 5 32 (by norm_num) (by omega)
    rw [e5]; clear e5
    have e6 : 32 * f1.has_mempak.toNat + (16 * f0.has_mempak.toNat + (8 * f3.controller_present.toNat + (4 * f2.controller_present.toNat + (2 * f1.controller_present.toNat + (f0.controller_present.toNat))))) ||| f2.has_mempak.toNat <<< 6 =
        64 * f2.has_mempak.toNat + (32 * f1.has_mempak.toNat + (16 * f0.has_mempak.toNat + (8 * f3.controller_present.toNat + (4 * f2.controller_present.toNat + (2 * f1.controller_present.toNat + (f0.controller_present.toNat)))))) :=
      or_shift 6 64 (by norm_num) (by omega)
    rw [e6]; clear e6
    have e7 : 64 * f2.has_mempak.toNat + (32 * f1.has_mempak.toNat + (16 * f0.has_mempak.toNat + (8 * f3.controller_present.toNat + (4 * f2.controller_present.toNat + (2 * f1.controller_present.toNat + (f0.controller_present.toNat)))))) ||| f3.has_mempak.toNat <<< 7 =
        128 * f3.has_mempak.toNat + (64 * f2.has_mempak.toNat + (32 * f1.has_mempak.toNat + (16 * f0.has_mempak.toNat + (8 * f3.controller_present.toNat + (4 * f2.controller_present.toNat + (2 * f1.controller_present.toNat + (f0.controller_present.toNat))))))) :=
      or_shift 7 128 (by norm_num) (by omega)
    rw [e7]; clear e7
    have e8 : 128 * f3.has_mempak.toNat + (64 * f2.has_mempak.toNat + (32 * f1.has_mempak.toNat + (16 * f0.has_mempak.toNat + (8 * f3.controller_present.toNat + (4 * f2.controller_present.toNat + (2 * f1.controller_present.toNat + (f0.controller_present.toNat))))))) ||| f0.has_rumblepak.toNat <<< 8 =
        256 * f0.has_rumblepak.toNat + (128 * f3.has_mempak.toNat + (64 * f2.has_mempak.toNat + (32 * f1.has_mempak.toNat + (16 * f0.has_mempak.toNat + (8 * f3.controller_present.toNat + (4 * f2.controller_present.toNat + (2 * f1.controller_present.toNat + (f0.controller_present.toNat)))))))) :=
      or_shift 8 256 (by norm_num) (by omega)
    rw [e8]; clear e8
    have e9 : 256 * f0.has_rumblepak.toNat + (128 * f3.has_mempak.toNat + (64 * f2.has_mempak.toNat + (32 * f1.has_mempak.toNat + (16 * f0.has_mempak.toNat + (8 * f3.controller_present.toNat + (4 * f2.controller_present.toNat + (2 * f1.controller_present.toNat + (f0.controller_present.toNat)))))))) ||| f1.has_rumblepak.toNat <<< 9 =
        512 * f1.has_rumblepak.toNat + (256 * f0.has_rumblepak.toNat + (128 * f3.has_mempak.toNat + (64 * f2.has_mempak.toNat + (32 * f1.has_mempak.toNat + (16 * f0.has_mempak.toNat + (8 * f3.controller_present.toNat + (4 * f2.controller_present.toNat + (2 * f1.controller_present.toNat + (f0.controller_present.toNat))))))))) :=
      or_shift 9 512 (by norm_num) (by omega)
    rw [e9]; clear e9
    have e10 : 512 * f1.has_rumblepak.toNat + (256 * f0.has_rumblepak.toNat + (128 * f3.has_mempak.toNat + (64 * f2.has_mempak.toNat + (32 * f1.has_mempak.toNat + (16 * f0.has_mempak.toNat + (8 * f3.controller_present.toNat + (4 * f2.controller_present.toNat + (2 * f1.controller_present.toNat + (f0.controller_present.toNat))))))))) ||| f2.has_rumblepak.toNat <<< 10 =
        1024 * f2.has_rumblepak.toNat + (512 * f1.has_rumblepak.toNat + (256 * f0.has_rumblepak.toNat + (128 * f3.has_mempak.toNat + (64 * f2.has_mempak.toNat + (32 * f1.has_mempak.toNat + (16 * f0.has_mempak.toNat + (8 * f3.controller_present.toNat + (4 * f2.controller_present.toNat + (2 * f1.controller_present.toNat + (f0.controller_present.toNat)))))))))) :=
      or_shift 10 1024 (by norm_num) (by omega)
    rw [e10]; clear e10
    have e11 : 1024 * f2.has_rumblepak.toNat + (512 * f1.has_rumblepak.toNat + (256 * f0.has_rumblepak.toNat + (128 * f3.has_mempak.toNat + (64 * f2.has_mempak.toNat + (32 * f1.has_mempak.toNat + (16 * f0.has_mempak.toNat + (8 * f3.controller_present.toNat + (4 * f2.controller_present.toNat + (2 * f1.controller_present.toNat + (f0.controller_present.toNat)))))))))) ||| f3.has_rumblepak.toNat <<< 11 =
        2048 * f3.has_rumblepak.toNat + (1024 * f2.has_rumblepak.toNat + (512 * f1.has_rumblepak.toNat + (256 * f0.has_rumblepak.toNat + (128 * f3.has_mempak.toNat + (64 * f2.has_mempak.toNat + (32 * f1.has_mempak.toNat + (16 * f0.has_mempak.toNat + (8 * f3.controller_present.toNat + (4 * f2.controller_present.toNat + (2 * f1.controller_present.toNat + (f0.controller_present.toNat))))))))))) :=
      or_shift 11 2048 (by norm_num) (by omega)
    rw [e11]

theorem flags_to_u32_lt_bound (f0 f1 f2 f3 : Flags) :
    Flags.to_u32 [f0, f1, f2, f3] < 4096 := by
  rw [flags_to_u32_sum]
  have b0 : f0.controller_present.toNat ≤ 1 := Bool.toNat_le _
  have b1 : f1.controller_present.toNat ≤ 1 := Bool.toNat_le _
  have b2 : f2.controller_present.toNat ≤ 1 := Bool.toNat_le _
  have b3 : f3.controller_present.toNat ≤ 1 := Bool.toNat_le _
  have b4 : f0.has_mempak.toNat ≤ 1 := Bool.toNat_le _
  have b5 : f1.has_mempak.toNat ≤ 1 := Bool.toNat_le _
  have b6 : f2.has_mempak.toNat ≤ 1 := Bool.toNat_le _
  have b7 : f3.has_mempak.toNat ≤ 1 := Bool.toNat_le _
  have b8 : f0.has_rumblepak.toNat ≤ 1 := Bool.toNat_le _
  have b9 : f1.has_rumblepak.toNat ≤ 1 := Bool.toNat_le _
  have b10 : f2.has_rumblepak.toNat ≤ 1 := Bool.toNat_le _
  have b11 : f3.has_rumblepak.toNat ≤ 1 := Bool.toNat_le _
  omega

theorem flags_from_u32_explicit (w : Nat) :
    Flags.from_u32 w =
      [⟨nth_bit w 0, nth_bit w 4, nth_bit w 8⟩,
       ⟨nth_bit w 1, nth_bit w 5, nth_bit w 9⟩,
       ⟨nth_bit w 2, nth_bit w 6, nth_bit w 10⟩,
       ⟨nth_bit w 3, nth_bit w 7, nth_bit w 11⟩] := rfl

theorem flags_roundtrip (w : Nat) (hw : w < 4096) :
    Flags.to_u32 (Flags.from_u32 w) = w := by
  rw [flags_from_u32_explicit, flags_to_u32_sum]
  simp only [nth_bit_toNat]
  norm_num
  have s1 : 2 * (w / 2 % 2) + w % 2 = w % 4 := by omega
  rw [s1]
  have s2 : 4 * (w / 4 % 2) + w % 4 = w % 8 := by omega
  rw [s2]
  have s3 : 8 * (w / 8 % 2) + w % 8 = w % 16 := by omega
  rw [s3]
  have s4 : 16 * (w / 16 % 2) + w % 16 = w % 32 := by omega
  rw [s4]
  have s5 : 32 * (w / 32 % 2) + w % 32 = w % 64 := by omega
  rw [s5]
  have s6 : 64 * (w / 64 % 2) + w % 64 = w % 128 := by omega
  rw [s6]
  have s7 : 128 * (w / 128 % 2) + w % 128 = w % 256 := by omega
  rw [s7]
  have s8 : 256 * (w / 256 % 2) + w % 256 = w % 512 := by omega
  rw [s8]
  have s9 : 512 * (w / 512 % 2) + w % 512 = w % 1024 := by omega
  rw [s9]
  have s10 : 1024 * (w / 1024 % 2) + w % 1024 = w % 2048 := by omega
  rw [s10]
  have s11 : 2048 * (w / 2048 % 2) + w % 2048 = w := by omega
  rw [s11]

/-! ## Claims -/

set_option maxRecDepth 100000

theorem check_ok_iff {e : M64ParseError} {P : Prop} [Decidable P] {u : Unit} :
    ((if P then Except.ok () else Except.error e) = Except.ok u) ↔ P := by
  split
  next h => simp [h]
  next h => simp [h]

theorem guard_ok_iff {α : Type} {e : M64ParseError} {P : Prop} [Decidable P]
    {x : α} {v : α} :
    ((if P then Except.ok x else Except.error e) = Except.ok v) ↔
      P ∧ v = x := by
  split
  next h => simp [h, eq_comm]
  next h => simp [h]

theorem elim_ok_iff {o : Option MovieStartType} {e : M64ParseError}
    {v : MovieStartType} :
    (o.elim (Except.error e) Except.ok = Except.ok v) ↔ o = some v := by
  cases o <;> simp [Option.elim]


theorem parseInputs_aligned : ∀ t : List Nat, t.length % 4 = 0 →
    (parseInputs t).2 = [] ∧ (parseInputs t).1.length = t.length / 4
  | [], _ => by simp [parseInputs]
  | [b0], h => by simp at h
  | [b0, b1], h => by simp at h
  | [b0, b1, b2], h => by simp at h
  | b0 :: b1 :: b2 :: b3 :: r, h => by
    have hr : r.length % 4 = 0 := by
      simp only [List.length_cons] at h
      omega
    have ih := parseInputs_aligned r hr
    refine ⟨?_, ?_⟩
    · simp only [parseInputs]
      exact ih.1
    · simp only [parseInputs, List.length_cons, ih.2]
      omega

theorem parseInputs_empty : ∀ t : List Nat, (parseInputs t).1 = [] →
    (parseInputs t).2 = [] → t = []
  | [], _, _ => rfl
  | [b0], _, h2 => by simp [parseInputs] at h2
  | [b0, b1], _, h2 => by simp [parseInputs] at h2
  | [b0, b1, b2], _, h2 => by simp [parseInputs] at h2
  | b0 :: b1 :: b2 :: b3 :: r, h1, _ => by simp [parseInputs] at h1

theorem toLe_fromLe_of_length {c : List Nat} {n : Nat} (hn : c.length = n)
    (h : ∀ b ∈ c, b < 256) : toLe n (fromLe c) = c := by
  subst hn
  exact toLe_fromLe c h

theorem zeros_chunk {c : List Nat} {n : Nat} (hlen : c.length = n)
    (hz : (c.all fun x => decide (x = 0)) = true) :
    List.replicate n 0 = c := by
  symm
  rw [List.eq_replicate_iff]
  refine ⟨hlen, fun b hb => ?_⟩
  simpa using List.all_eq_true.mp hz b hb

theorem toU16_fromRepr {v : Nat} {t : MovieStartType}
    (h : MovieStartType.fromRepr v = some t) : t.toU16 = v := by
  unfold MovieStartType.fromRepr at h
  split at h
  next hv => injection h with h; subst h; simp [MovieStartType.toU16, hv]
  next hv =>
    split at h
    next hv2 => injection h with h; subst h; simp [MovieStartType.toU16, hv2]
    next hv2 =>
      split at h
      next hv3 =>
        injection h with h; subst h; simp [MovieStartType.toU16, hv3]
      next hv3 => cases h

theorem parseInputs_encode : ∀ (t : List Nat) (ins : List Input),
    (∀ b ∈ t, b < 256) → parseInputs t = (ins, []) →
    ins.foldr (fun i acc => toLe 4 (Input.toU32 i) ++ acc) [] = t
  | [], ins, _, hp => by
    simp only [parseInputs] at hp
    injection hp with h1 h2
    rw [← h1]
    rfl
  | [b0], ins, _, hp => by
    simp only [parseInputs] at hp
    injection hp with h1 h2
    cases h2
  | [b0, b1], ins, _, hp => by
    simp only [parseInputs] at hp
    injection hp with h1 h2
    cases h2
  | [b0, b1, b2], ins, _, hp => by
    simp only [parseInputs] at hp
    injection hp with h1 h2
    cases h2
  | b0 :: b1 :: b2 :: b3 :: r, ins, hb, hp => by
    simp only [parseInputs] at hp
    injection hp with h1 h2
    have hbr : ∀ b ∈ r, b < 256 := fun b hbm => hb b (by simp [hbm])
    have hb4 : ∀ b ∈ [b0, b1, b2, b3], b < 256 := by
      intro x hx
      simp only [List.mem_cons, List.not_mem_nil, or_false] at hx
      rcases hx with h | h | h | h <;> (subst h; apply hb; simp)
    have ih := parseInputs_encode r (parseInputs r).1 hbr (by rw [← h2])
    rw [← h1]
    simp only [List.foldr_cons, ih]
    have hw : fromLe [b0, b1, b2, b3] < 4294967296 := by
      have h4 := fromLe_lt [b0, b1, b2, b3] hb4
      norm_num at h4
      exact h4
    rw [input_roundtrip _ hw,
      toLe_fromLe_of_length (show ([b0, b1, b2, b3] : List Nat).length = 4 from rfl) hb4]
    rfl

set_option maxHeartbeats 4000000 in
/-- Eliminate a successful decode into explicit per-field facts. -/
theorem decode_facts (data : List Nat) (m : M64)
    (hok : M64.from_u8_array data = .ok m) : DecodeFacts data m := by
  simp only [M64.from_u8_array, except_bind_ok, pfield_ok, Prod.exists,
    check_ok_iff, guard_ok_iff, elim_ok_iff, Except.ok.injEq] at hok
  obtain ⟨-, d1, ⟨hL_sig, ⟨h_sig, -⟩, hD1⟩, -, d2, ⟨hL_ver, ⟨h_ver, -⟩, hD2⟩, v_uid, d3, ⟨hL_uid, h_uid, hD3⟩, v_vi, d4, ⟨hL_vi, h_vi, hD4⟩, v_rr, d5, ⟨hL_rr, h_rr, hD5⟩, v_fps, d6, ⟨hL_fps, h_fps, hD6⟩, v_cc, d7, ⟨hL_cc, h_cc, hD7⟩, -, d8, ⟨hL_z1, ⟨h_z1, -⟩, hD8⟩, v_ifr, d9, ⟨hL_ifr, h_ifr, hD9⟩, v_mst, d10, ⟨hL_mst, h_mst, hD10⟩, -, d11, ⟨hL_z2, ⟨h_z2, -⟩, hD11⟩, v_fl, d12, ⟨hL_fl, h_fl, hD12⟩, -, d13, ⟨hL_z3, ⟨h_z3, -⟩, hD13⟩, v_nm, d14, ⟨hL_nm, ⟨hU_nm, h_nm⟩, hD14⟩, v_crc, d15, ⟨hL_crc, h_crc, hD15⟩, v_cco, d16, ⟨hL_cco, h_cco, hD16⟩, -, d17, ⟨hL_z4, ⟨h_z4, -⟩, hD17⟩, v_vp, d18, ⟨hL_vp, ⟨hU_vp, h_vp⟩, hD18⟩, v_sp, d19, ⟨hL_sp, ⟨hU_sp, h_sp⟩, hD19⟩, v_ip, d20, ⟨hL_ip, ⟨hU_ip, h_ip⟩, hD20⟩, v_rp, d21, ⟨hL_rp, ⟨hU_rp, h_rp⟩, hD21⟩, v_au, d22, ⟨hL_au, ⟨hU_au, h_au⟩, hD22⟩, v_de, d23, ⟨hL_de, ⟨hU_de, h_de⟩, hD23⟩, hemp, hm⟩ := hok
  have hO1 : d1 = data.drop 4 := hD1
  have hO2 : d2 = data.drop 8 := by
    rw [hD2, hO1]; simp [List.drop_drop]
  have hO3 : d3 = data.drop 12 := by
    rw [hD3, hO2]; simp [List.drop_drop]
  have hO4 : d4 = data.drop 16 := by
    rw [hD4, hO3]; simp [List.drop_drop]
  have hO5 : d5 = data.drop 20 := by
    rw [hD5, hO4]; simp [List.drop_drop]
  have hO6 : d6 = data.drop 21 := by
    rw [hD6, hO5]; simp [List.drop_drop]
  have hO7 : d7 = data.drop 22 := by
    rw [hD7, hO6]; simp [List.drop_drop]
  have hO8 : d8 = data.drop 24 := by
    rw [hD8, hO7]; simp [List.drop_drop]
  have hO9 : d9 = data.drop 28 := by
    rw [hD9, hO8]; simp [List.drop_drop]
  have hO10 : d10 = data.drop 30 := by
    rw [hD10, hO9]; simp [List.drop_drop]
  have hO11 : d11 = data.drop 32 := by
    rw [hD11, hO10]; simp [List.drop_drop]
  have hO12 : d12 = data.drop 36 := by
    rw [hD12, hO11]; simp [List.drop_drop]
  have hO13 : d13 = data.drop 196 := by
    rw [hD13, hO12]; simp [List.drop_drop]
  have hO14 : d14 = data.drop 228 := by
    rw [hD14, hO13]; simp [List.drop_drop]
  have hO15 : d15 = data.drop 232 := by
    rw [hD15, hO14]; simp [List.drop_drop]
  have hO16 : d16 = data.drop 234 := by
    rw [hD16, hO15]; simp [List.drop_drop]
  have hO17 : d17 = data.drop 290 := by
    rw [hD17, hO16]; simp [List.drop_drop]
  have hO18 : d18 = data.drop 354 := by
    rw [hD18, hO17]; simp [List.drop_drop]
  have hO19 : d19 = data.drop 418 := by
    rw [hD19, hO18]; simp [List.drop_drop]
  have hO20 : d20 = data.drop 482 := by
    rw [hD20, hO19]; simp [List.drop_drop]
  have hO21 : d21 = data.drop 546 := by
    rw [hD21, hO20]; simp [List.drop_drop]
  have hO22 : d22 = data.drop 768 := by
    rw [hD22, hO21]; simp [List.drop_drop]
  have hO23 : d23 = data.drop 1024 := by
    rw [hD23, hO22]; simp [List.drop_drop]
  exact ⟨(by exact hL_sig),
    (by exact h_sig),
    (by rw [← hO1]; exact hL_ver),
    (by rw [← hO1]; exact h_ver),
    (by rw [← hO2]; exact hL_uid),
    (by rw [hm]; show v_uid = _; rw [← h_uid, hO2]),
    (by rw [← hO3]; exact hL_vi),
    (by rw [hm]; show v_vi = _; rw [← h_vi, hO3]),
    (by rw [← hO4]; exact hL_rr),
    (by rw [hm]; show v_rr = _; rw [← h_rr, hO4]),
    (by rw [← hO5]; exact hL_fps),
    (by rw [hm]; show v_fps = _; rw [← h_fps, hO5]),
    (by rw [← hO6]; exact hL_cc),
    (by rw [hm]; show v_cc = _; rw [← h_cc, hO6]),
    (by rw [← hO7]; exact hL_z1),
    (by rw [← hO7]; exact h_z1),
    (by rw [← hO8]; exact hL_ifr),
    (by rw [hm]; show v_ifr = _; rw [← h_ifr, hO8]),
    (by rw [← hO9]; exact hL_mst),
    (by rw [hm]; show _ = some v_mst; rw [← hO9]; exact h_mst),
    (by rw [← hO10]; exact hL_z2),
    (by rw [← hO10]; exact h_z2),
    (by rw [← hO11]; exact hL_fl),
    (by rw [hm]; show v_fl = _; rw [← h_fl, hO11]),
    (by rw [← hO12]; exact hL_z3),
    (by rw [← hO12]; exact h_z3),
    (by rw [← hO13]; exact hL_nm),
    (by rw [← hO13]; exact hU_nm),
    (by rw [hm]; show v_nm = _; rw [h_nm, hO13]),
    (by rw [← hO14]; exact hL_crc),
    (by rw [hm]; show v_crc = _; rw [← h_crc, hO14]),
    (by rw [← hO15]; exact hL_cco),
    (by rw [hm]; show v_cco = _; rw [← h_cco, hO15]),
    (by rw [← hO16]; exact hL_z4),
    (by rw [← hO16]; exact h_z4),
    (by rw [← hO17]; exact hL_vp),
    (by rw [← hO17]; exact hU_vp),
    (by rw [hm]; show v_vp = _; rw [h_vp, hO17]),
    (by rw [← hO18]; exact hL_sp),
    (by rw [← hO18]; exact hU_sp),
    (by rw [hm]; show v_sp = _; rw [h_sp, hO18]),
    (by rw [← hO19]; exact hL_ip),
    (by rw [← hO19]; exact hU_ip),
    (by rw [hm]; show v_ip = _; rw [h_ip, hO19]),
    (by rw [← hO20]; exact hL_rp),
    (by rw [← hO20]; exact hU_rp),
    (by rw [hm]; show v_rp = _; rw [h_rp, hO20]),
    (by rw [← hO21]; exact hL_au),
    (by rw [← hO21]; exact hU_au),
    (by rw [hm]; show v_au = _; rw [h_au, hO21]),
    (by rw [← hO22]; exact hL_de),
    (by rw [← hO22]; exact hU_de),
    (by rw [hm]; show v_de = _; rw [h_de, hO22]),
    (by rw [hm]; show (parseInputs d23).1 = _; rw [hO23]),
    (by rw [← hO23]; exact List.isEmpty_iff.mp hemp)⟩

set_option maxHeartbeats 2000000 in
/-- **C1** (amended): for every byte buffer that `from_u8_array` decodes
successfully, and whose controller-flags dword (offset 0x20) has bits
12..31 zero, `write_m64` reproduces the buffer byte for byte — including
any non-canonical zero padding inside the fixed-capacity text fields,
which the decoder stores and the writer re-emits verbatim.  (The side
condition is forced by the code: `Flags::from_u32` ignores bits 12..31,
so decode accepts them but re-encode zeroes them.) -/
theorem claim_C1_roundtrip (data : List Nat) (m : M64)
    (hbytes : ∀ b ∈ data, b < 256)
    (hok : M64.from_u8_array data = .ok m)
    (hflags : fromLe ((data.drop 32).take 4) < 4096) :
    m.write_m64 = data := by
  have F := decode_facts data m hok
  have hBt : ∀ K n : Nat, ∀ b ∈ (data.drop K).take n, b < 256 :=
    fun K n b hb =>
      hbytes b (List.drop_subset K data (List.take_subset n (data.drop K) hb))
  unfold M64.write_m64
  rw [F.uid, F.vi, F.rr, F.fps, F.cc, F.ifr, F.fl, F.nm, F.crc, F.cco,
    F.vp, F.sp, F.ip, F.rp, F.au, F.de, F.ins, toU16_fromRepr F.mst,
    flags_roundtrip _ hflags]
  rw [← F.sig]
  rw [show toLe 4 3 = (data.drop 4).take 4 from by
    rw [← F.ver]
    exact toLe_fromLe_of_length (List.length_take_of_le F.len_ver) (hBt 4 4)]
  rw [toLe_fromLe_of_length (List.length_take_of_le F.len_uid) (hBt 8 4)]
  rw [toLe_fromLe_of_length (List.length_take_of_le F.len_vi) (hBt 12 4)]
  rw [toLe_fromLe_of_length (List.length_take_of_le F.len_rr) (hBt 16 4)]
  rw [toLe_fromLe_of_length (List.length_take_of_le F.len_fps) (hBt 20 1)]
  rw [toLe_fromLe_of_length (List.length_take_of_le F.len_cc) (hBt 21 1)]
  rw [toLe_fromLe_of_length (List.length_take_of_le F.len_ifr) (hBt 24 4)]
  rw [toLe_fromLe_of_length (List.length_take_of_le F.len_mst) (hBt 28 2)]
  rw [toLe_fromLe_of_length (List.length_take_of_le F.len_fl) (hBt 32 4)]
  rw [toLe_fromLe_of_length (List.length_take_of_le F.len_crc) (hBt 228 4)]
  rw [toLe_fromLe_of_length (List.length_take_of_le F.len_cco) (hBt 232 2)]
  nth_rewrite 2 [show List.replicate 2 0 = (data.drop 30).take 2 from
    zeros_chunk (List.length_take_of_le F.len_z2) F.z2]
  rw [show List.replicate 2 0 = (data.drop 22).take 2 from
    zeros_chunk (List.length_take_of_le F.len_z1) F.z1]
  rw [show List.replicate 160 0 = (data.drop 36).take 160 from
    zeros_chunk (List.length_take_of_le F.len_z3) F.z3]
  rw [show List.replicate 56 0 = (data.drop 234).take 56 from
    zeros_chunk (List.length_take_of_le F.len_z4) F.z4]
  have hp : parseInputs (data.drop 1024) =
      ((parseInputs (data.drop 1024)).1, []) := by
    rw [← F.insRest]
  rw [parseInputs_encode (data.drop 1024) ((parseInputs (data.drop 1024)).1)
    (fun b hb => hbytes b (List.drop_subset 1024 data hb)) hp]
  have E_sig : data = data.take 4 ++ data.drop 4 :=
    (List.take_append_drop 4 data).symm
  have E_ver : data.drop 4 =
      (data.drop 4).take 4 ++ data.drop 8 := by
    have h : (data.drop 4).drop 4 = data.drop 8 := by
      simp [List.drop_drop]
    rw [← h]
    exact (List.take_append_drop 4 (data.drop 4)).symm
  have E_uid : data.drop 8 =
      (data.drop 8).take 4 ++ data.drop 12 := by
    have h : (data.drop 8).drop 4 = data.drop 12 := by
      simp [List.drop_drop]
    rw [← h]
    exact (List.take_append_drop 4 (data.drop 8)).symm
  have E_vi : data.drop 12 =
      (data.drop 12).take 4 ++ data.drop 16 := by
    have h : (data.drop 12).drop 4 = data.drop 16 := by
      simp [List.drop_drop]
    rw [← h]
    exact (List.take_append_drop 4 (data.drop 12)).symm
  have E_rr : data.drop 16 =
      (data.drop 16).take 4 ++ data.drop 20 := by
    have h : (data.drop 16).drop 4 = data.drop 20 := by
      simp [List.drop_drop]
    rw [← h]
    exact (List.take_append_drop 4 (data.drop 16)).symm
  have E_fps : data.drop 20 =
      (data.drop 20).take 1 ++ data.drop 21 := by
    have h : (data.drop 20).drop 1 = data.drop 21 := by
      simp [List.drop_drop]
    rw [← h]
    exact (List.take_append_drop 1 (data.drop 20)).symm
  have E_cc : data.drop 21 =
      (data.drop 21).take 1 ++ data.drop 22 := by
    have h : (data.drop 21).drop 1 = data.drop 22 := by
      simp [List.drop_drop]
    rw [← h]
    exact (List.take_append_drop 1 (data.drop 21)).symm
  have E_z1 : data.drop 22 =
      (data.drop 22).take 2 ++ data.drop 24 := by
    have h : (data.drop 22).drop 2 = data.drop 24 := by
      simp [List.drop_drop]
    rw [← h]
    exact (List.take_append_drop 2 (data.drop 22)).symm
  have E_ifr : data.drop 24 =
      (data.drop 24).take 4 ++ data.drop 28 := by
    have h : (data.drop 24).drop 4 = data.drop 28 := by
      simp [List.drop_drop]
    rw [← h]
    exact (List.take_append_drop 4 (data.drop 24)).symm
  have E_mst : data.drop 28 =
      (data.drop 28).take 2 ++ data.drop 30 := by
    have h : (data.drop 28).drop 2 = data.drop 30 := by
      simp [List.drop_drop]
    rw [← h]
    exact (List.take_append_drop 2 (data.drop 28)).symm
  have E_z2 : data.drop 30 =
      (data.drop 30).take 2 ++ data.drop 32 := by
    have h : (data.drop 30).drop 2 = data.drop 32 := by
      simp [List.drop_drop]
    rw [← h]
    exact (List.take_append_drop 2 (data.drop 30)).symm
  have E_fl : data.drop 32 =
      (data.drop 32).take 4 ++ data.drop 36 := by
    have h : (data.drop 32).drop 4 = data.drop 36 := by
      simp [List.drop_drop]
    rw [← h]
    exact (List.take_append_drop 4 (data.drop 32)).symm
  have E_z3 : data.drop 36 =
      (data.drop 36).take 160 ++ data.drop 196 := by
    have h : (data.drop 36).drop 160 = data.drop 196 := by
      simp [List.drop_drop]
    rw [← h]
    exact (List.take_append_drop 160 (data.drop 36)).symm
  have E_nm : data.drop 196 =
      (data.drop 196).take 32 ++ data.drop 228 := by
    have h : (data.drop 196).drop 32 = data.drop 228 := by
      simp [List.drop_drop]
    rw [← h]
    exact (List.take_append_drop 32 (data.drop 196)).symm
  have E_crc : data.drop 228 =
      (data.drop 228).take 4 ++ data.drop 232 := by
    have h : (data.drop 228).drop 4 = data.drop 232 := by
      simp [List.drop_drop]
    rw [← h]
    exact (List.take_append_drop 4 (data.drop 228)).symm
  have E_cco : data.drop 232 =
      (data.drop 232).take 2 ++ data.drop 234 := by
    have h : (data.drop 232).drop 2 = data.drop 234 := by
      simp [List.drop_drop]
    rw [← h]
    exact (List.take_append_drop 2 (data.drop 232)).symm
  have E_z4 : data.drop 234 =
      (data.drop 234).take 56 ++ data.drop 290 := by
    have h : (data.drop 234).drop 56 = data.drop 290 := by
      simp [List.drop_drop]
    rw [← h]
    exact (List.take_append_drop 56 (data.drop 234)).symm
  have E_vp : data.drop 290 =
      (data.drop 290).take 64 ++ data.drop 354 := by
    have h : (data.drop 290).drop 64 = data.drop 354 := by
      simp [List.drop_drop]
    rw [← h]
    exact (List.take_append_drop 64 (data.drop 290)).symm
  have E_sp : data.drop 354 =
      (data.drop 354).take 64 ++ data.drop 418 := by
    have h : (data.drop 354).drop 64 = data.drop 418 := by
      simp [List.drop_drop]
    rw [← h]
    exact (List.take_append_drop 64 (data.drop 354)).symm
  have E_ip : data.drop 418 =
      (data.drop 418).take 64 ++ data.drop 482 := by
    have h : (data.drop 418).drop 64 = data.drop 482 := by
      simp [List.drop_drop]
    rw [← h]
    exact (List.take_append_drop 64 (data.drop 418)).symm
  have E_rp : data.drop 482 =
      (data.drop 482).take 64 ++ data.drop 546 := by
    have h : (data.drop 482).drop 64 = data.drop 546 := by
      simp [List.drop_drop]
    rw [← h]
    exact (List.take_append_drop 64 (data.drop 482)).symm
  have E_au : data.drop 546 =
      (data.drop 546).take 222 ++ data.drop 768 := by
    have h : (data.drop 546).drop 222 = data.drop 768 := by
      simp [List.drop_drop]
    rw [← h]
    exact (List.take_append_drop 222 (data.drop 546)).symm
  have E_de : data.drop 768 =
      (data.drop 768).take 256 ++ data.drop 1024 := by
    have h : (data.drop 768).drop 256 = data.drop 1024 := by
      simp [List.drop_drop]
    rw [← h]
    exact (List.take_append_drop 256 (data.drop 768)).symm
  conv_rhs => rw [E_sig, E_ver, E_uid, E_vi, E_rr, E_fps, E_cc, E_z1, E_ifr, E_mst, E_z2, E_fl, E_z3, E_nm, E_crc, E_cco, E_z4, E_vp, E_sp, E_ip, E_rp, E_au, E_de]
  simp only [List.append_assoc]

theorem toLe_bytes (n v : Nat) : ∀ b ∈ toLe n v, b < 256 := by
  induction n generalizing v with
  | zero => simp [toLe]
  | succ n ih =>
    intro b hb
    simp only [toLe, List.mem_cons] at hb
    rcases hb with h | h
    · omega
    · exact ih _ b h

theorem fold_inputs_bytes (l : List Input) :
    ∀ b ∈ l.foldr (fun i acc => toLe 4 (Input.toU32 i) ++ acc) [], b < 256 := by
  induction l with
  | nil => simp
  | cons i l ih =>
    intro b hb
    simp only [List.foldr_cons, List.mem_append] at hb
    rcases hb with h | h
    · exact toLe_bytes 4 _ b h
    · exact ih b h

/-- Every byte `write_m64` emits is a byte value, provided the stored text
fields consist of byte values. -/
theorem write_m64_bytes (m : M64)
    (h1 : ∀ b ∈ m.rom_internal_name, b < 256)
    (h2 : ∀ b ∈ m.video_plugin, b < 256)
    (h3 : ∀ b ∈ m.sound_plugin, b < 256)
    (h4 : ∀ b ∈ m.input_plugin, b < 256)
    (h5 : ∀ b ∈ m.rsp_plugin, b < 256)
    (h6 : ∀ b ∈ m.author, b < 256)
    (h7 : ∀ b ∈ m.description, b < 256) :
    ∀ b ∈ m.write_m64, b < 256 := by
  unfold M64.write_m64
  intro b hb
  simp only [List.mem_append, magic, List.mem_cons, List.not_mem_nil,
    or_false, List.mem_replicate] at hb
  rcases hb with ((((((((((((((((((((((h | h) | h) | h) | h) | h) | h) | h) | h) | h) | h) | h) | h) | h) | h) | h) | h) | h) | h) | h) | h) | h) | h) | h
  case _ => rcases h with h | h | h | h <;> omega
  case _ => exact toLe_bytes 4 3 b h
  case _ => exact toLe_bytes 4 m.uid b h
  case _ => exact toLe_bytes 4 m.vi_frames b h
  case _ => exact toLe_bytes 4 m.rerecords b h
  case _ => exact toLe_bytes 1 m.fps b h
  case _ => exact toLe_bytes 1 m.controller_count b h
  case _ => omega
  case _ => exact toLe_bytes 4 m.input_frames b h
  case _ => exact toLe_bytes 2 m.movie_start_type.toU16 b h
  case _ => omega
  case _ => exact toLe_bytes 4 (Flags.to_u32 m.controller_flags) b h
  case _ => omega
  case _ => exact h1 b h
  case _ => exact toLe_bytes 4 m.rom_crc_32 b h
  case _ => exact toLe_bytes 2 m.rom_country_code b h
  case _ => omega
  case _ => exact h2 b h
  case _ => exact h3 b h
  case _ => exact h4 b h
  case _ => exact h5 b h
  case _ => exact h6 b h
  case _ => exact h7 b h
  case _ => exact fold_inputs_bytes m.inputs b h

theorem defaultHeaderBytes_bytes : ∀ b ∈ defaultHeaderBytes, b < 256 := by
  refine write_m64_bytes defaultM64 ?_ ?_ ?_ ?_ ?_ ?_ ?_ <;>
    (intro b hb
     have hz := List.eq_of_mem_replicate hb
     omega)

/-- **C1** (counterexample): a valid header whose controller-flags word is
`0x1000` (bit 12 set) decodes successfully — `Flags::from_u32` only reads
bits 0..11 — but re-encoding the decoded value zeroes that bit, so the
round-trip is not byte-exact on this buffer. -/
theorem claim_C1_counterexample :
    M64.from_u8_array flagsBadBuf = .ok defaultM64 ∧
    defaultM64.write_m64 ≠ flagsBadBuf :=
  ⟨rfl, by decide⟩

theorem claim_C1_witness :
    defaultM64.write_m64 = defaultHeaderBytes :=
  claim_C1_roundtrip defaultHeaderBytes defaultM64 defaultHeaderBytes_bytes
    rfl (by decide)

/-- **C2**: for every 32-bit word `w`, decoding `w` into an input sample
(`Input::from(u32)`) and re-encoding it (`u32::from(Input)`) yields exactly
`w`.  Both directions are total Lean functions (mirroring the Rust `From`
impls, which have no error path), so the round-trip is exact over the full
2^32 space; in particular the two reserved button bits (bits 14 and 15) are
decoded and re-encoded verbatim. -/
theorem claim_C2_input_word_roundtrip (w : Nat) (hw : w < 4294967296) :
    Input.toU32 (Input.fromU32 w) = w :=
  input_roundtrip w hw

theorem claim_C2_witness :
    Input.toU32 (Input.fromU32 0x37F60080) = 0x37F60080 :=
  claim_C2_input_word_roundtrip 0x37F60080 (by norm_num)

/-- **C3**: for every array of 4 controller `Flags`, `Flags::to_u32`
returns a word whose bits 12 and above are all zero; and for every 32-bit
word whose bits 12..31 are zero, `to_u32 ∘ from_u32` is the identity
(slot `i` uses bit `i` for present, `i+4` for mempak, `i+8` for rumblepak,
as the definitions embody). -/
theorem claim_C3_controller_flags :
    (∀ f0 f1 f2 f3 : Flags, ∀ i, 12 ≤ i →
        Nat.testBit (Flags.to_u32 [f0, f1, f2, f3]) i = false) ∧
    (∀ w, w < 4294967296 →
        (∀ i, 12 ≤ i → i < 32 → Nat.testBit w i = false) →
        Flags.to_u32 (Flags.from_u32 w) = w) := by
  constructor
  · intro f0 f1 f2 f3 i hi
    have h := flags_to_u32_lt_bound f0 f1 f2 f3
    have h2 : Flags.to_u32 [f0, f1, f2, f3] < 2 ^ i := by
      calc Flags.to_u32 [f0, f1, f2, f3] < 4096 := h
        _ = 2 ^ 12 := by norm_num
        _ ≤ 2 ^ i := Nat.pow_le_pow_right (by norm_num) hi
    exact Nat.testBit_lt_two_pow h2
  · intro w hw hbits
    have hz : w >>> 12 = 0 := by
      apply Nat.eq_of_testBit_eq
      intro i
      rw [Nat.testBit_shiftRight, Nat.zero_testBit]
      by_cases hi : 12 + i < 32
      · exact hbits (12 + i) (by omega) hi
      · refine Nat.testBit_lt_two_pow ?_
        calc w < 4294967296 := hw
          _ = 2 ^ 32 := by norm_num
          _ ≤ 2 ^ (12 + i) := Nat.pow_le_pow_right (by norm_num) (by omega)
    rw [Nat.shiftRight_eq_div_pow] at hz
    norm_num at hz
    exact flags_roundtrip w (by omega)

theorem claim_C3_witness :
    Nat.testBit (Flags.to_u32 [⟨true, true, true⟩, ⟨true, true, true⟩,
      ⟨true, true, true⟩, ⟨true, true, true⟩]) 12 = false ∧
    Flags.to_u32 (Flags.from_u32 2730) = 2730 :=
  ⟨claim_C3_controller_flags.1 _ _ _ _ 12 (by norm_num),
   claim_C3_controller_flags.2 2730 (by norm_num)
     (by intro i h1 h2; interval_cases i <;> rfl)⟩

/-- **C4** (code behaviour at the claim's failing input): a 1026-byte
buffer — a valid 1024-byte header followed by two extra bytes — is rejected
only after the whole header has been parsed, and with the generic
`NotEnoughData { expected: 4, actual: 2 }` of `m64.rs` ("Data input too
small"), not with a misaligned-input error.  `error.rs` declares
`InputNot4BytesAligned(usize)` carrying the remainder and the repo's test
`not_enough_input_data` expects exactly that error, but `from_u8_array`
never produces it and performs no alignment check before header parsing. -/
theorem claim_C4_misaligned_gives_not_enough_data :
    M64.from_u8_array (defaultHeaderBytes ++ [0, 0]) =
      .error (.NotEnoughData 4 2) := rfl

/-- **C5** (counterexample): `write_m64` does not zero-pad text fields to
their fixed capacity: an M64 value whose text fields are empty serializes
to 258 bytes, not `1024 + 4 × samples`. -/
theorem claim_C5_counterexample :
    emptyTextM64.write_m64.length ≠
      1024 + 4 * emptyTextM64.inputs.length := by decide

/-- **C5** (amended): `write_m64` emits the header's fields in fixed order
but writes each text field's stored bytes verbatim, with no padding; the
output length is `258 + (total stored text bytes) + 4 × samples`, which
equals `1024 + 4 × samples` exactly when every text field is at its full
capacity (as is the case for every value produced by a successful decode). -/
theorem claim_C5_write_length (m : M64) :
    m.write_m64.length =
      258 + m.rom_internal_name.length + m.video_plugin.length +
      m.sound_plugin.length + m.input_plugin.length + m.rsp_plugin.length +
      m.author.length + m.description.length + 4 * m.inputs.length := by
  unfold M64.write_m64
  simp [List.length_append, toLe_length, List.length_replicate,
    foldr_inputs_length, magic]
  omega

/-- **C6**: whenever the first four bytes differ from the magic
`4D 36 34 1A` (and the version field is also invalid, which the parser
never even reaches), decode reports `InvalidFileSignature` carrying those
four bytes — never `InvalidVersion`: the first field in layout order wins
and parsing stops there. -/
theorem claim_C6_signature_error_first (data : List Nat)
    (hlen : 8 ≤ data.length) (hsig : data.take 4 ≠ magic)
    (hver : fromLe ((data.drop 4).take 4) ≠ 3) :
    M64.from_u8_array data =
      .error (.InvalidFileSignature (data.take 4)) := by
  unfold M64.from_u8_array
  have h1 : pfield 4 (M64ParseError.NotEnoughData 4)
      (fun c => if c = magic then .ok () else
        .error (.InvalidFileSignature c)) data =
      .error (.InvalidFileSignature (data.take 4)) := by
    unfold pfield
    rw [if_neg (by omega)]
    simp [hsig]
  rw [h1]
  rfl

theorem claim_C6_witness :
    M64.from_u8_array (List.replicate 8 255) =
      .error (.InvalidFileSignature ((List.replicate 8 255).take 4)) :=
  claim_C6_signature_error_first (List.replicate 8 255) (by decide)
    (by decide) (by decide)

theorem bind_ok_reduce {α β : Type} (a : α)
    (f : α → Except M64ParseError β) : (Except.ok a >>= f) = f a := rfl

theorem bind_error_reduce {α β : Type} (e : M64ParseError)
    (f : α → Except M64ParseError β) :
    ((Except.error e : Except M64ParseError α) >>= f) = Except.error e := rfl

/-- **C7**: a buffer whose 16-bit movie-start-type field holds any value
other than 1 (snapshot), 2 (power-on) or 4 (EEPROM) fails decoding with
`InvalidMovieStartType` (no default is substituted); the value 2
round-trips through decode and encode; and the library-level default
`MovieStartType` is `PowerOn`, which encodes as 2. -/
theorem claim_C7_movie_start_type :
    (∀ v, v < 65536 → v ≠ 1 → v ≠ 2 → v ≠ 4 →
        M64.from_u8_array (mstBuf v) = .error .InvalidMovieStartType) ∧
    M64.from_u8_array (mstBuf 2) = .ok defaultM64 ∧
    defaultM64.write_m64 = mstBuf 2 ∧
    (default : MovieStartType) = .PowerOn ∧
    MovieStartType.toU16 default = 2 := by
  refine ⟨?_, rfl, rfl, rfl, rfl⟩
  intro v hv h1 h2 h4
  have hsplit : mstBuf v =
      [0x4D, 0x36, 0x34, 0x1A] ++ ([3, 0, 0, 0] ++ ([0, 0, 0, 0] ++
      ([0, 0, 0, 0] ++ ([0, 0, 0, 0] ++ ([0] ++ ([0] ++ ([0, 0] ++
      ([0, 0, 0, 0] ++
        (toLe 2 v ++ defaultHeaderBytes.drop 30))))))))) := by
    have hA : defaultHeaderBytes.take 28 =
        [0x4D, 0x36, 0x34, 0x1A, 3, 0, 0, 0, 0, 0, 0, 0, 0, 0, 0, 0,
         0, 0, 0, 0, 0, 0, 0, 0, 0, 0, 0, 0] := rfl
    rw [mstBuf, hA, List.append_assoc]
    rfl
  rw [hsplit]
  unfold M64.from_u8_array
  rw [pfield_consume 4 (M64ParseError.NotEnoughData 4)
    (fun c => if c = magic then .ok () else
      .error (.InvalidFileSignature c)) [0x4D, 0x36, 0x34, 0x1A] rfl rfl]
  simp only [bind_ok_reduce]
  rw [pfield_consume 4 (M64ParseError.NotEnoughData 4)
    (fun c => if fromLe c = 3 then .ok () else
      .error (.InvalidVersion (fromLe c))) [3, 0, 0, 0] rfl rfl]
  simp only [bind_ok_reduce]
  rw [pfield_consume 4 (M64ParseError.NotEnoughData 4)
    (fun c => .ok (fromLe c)) [0, 0, 0, 0] rfl rfl]
  simp only [bind_ok_reduce]
  rw [pfield_consume 4 (M64ParseError.NotEnoughData 4)
    (fun c => .ok (fromLe c)) [0, 0, 0, 0] rfl rfl]
  simp only [bind_ok_reduce]
  rw [pfield_consume 4 (M64ParseError.NotEnoughData 4)
    (fun c => .ok (fromLe c)) [0, 0, 0, 0] rfl rfl]
  simp only [bind_ok_reduce]
  rw [pfield_consume 1 (M64ParseError.NotEnoughData 4)
    (fun c => .ok (fromLe c)) [0] rfl rfl]
  simp only [bind_ok_reduce]
  rw [pfield_consume 1 (M64ParseError.NotEnoughData 4)
    (fun c => .ok (fromLe c)) [0] rfl rfl]
  simp only [bind_ok_reduce]
  rw [pfield_consume 2 (M64ParseError.NotEnoughData 2)
    (fun c => if c.all (· = 0) then .ok () else
      .error .ReservedNotZero) [0, 0] rfl rfl]
  simp only [bind_ok_reduce]
  rw [pfield_consume 4 (M64ParseError.NotEnoughData 4)
    (fun c => .ok (fromLe c)) [0, 0, 0, 0] rfl rfl]
  simp only [bind_ok_reduce]
  rw [pfield_consume_error 2 (M64ParseError.NotEnoughData 2)
    (fun c => (MovieStartType.fromRepr (fromLe c)).elim
      (.error .InvalidMovieStartType) .ok) (toLe 2 v) (toLe_length 2 v)
    (by
      show (MovieStartType.fromRepr (fromLe (toLe 2 v))).elim
        (Except.error M64ParseError.InvalidMovieStartType) Except.ok =
        Except.error M64ParseError.InvalidMovieStartType
      rw [fromLe_toLe]
      norm_num
      rw [Nat.mod_eq_of_lt hv]
      unfold MovieStartType.fromRepr
      rw [if_neg h1, if_neg h2, if_neg h4]
      rfl)]
  simp only [bind_error_reduce]

theorem claim_C7_witness :
    M64.from_u8_array (mstBuf 3) = .error .InvalidMovieStartType :=
  claim_C7_movie_start_type.1 3 (by norm_num) (by norm_num) (by norm_num)
    (by norm_num)

/-- **C8** (counterexample): the word `0x0080_0037` named by the claim
does not decode to X = -10 and Y = 55: its byte at bit offset 16 is `0x80`
(so X = -128) and its top byte is `0x00` (so Y = 0). -/
theorem claim_C8_counterexample :
    ¬ ((Input.fromU32 0x00800037).x_axis = -10 ∧
       (Input.fromU32 0x00800037).y_axis = 55) := by decide

/-- **C8** (amended): the designated example word is `0x37F6_0080` (the
word the repo's own `inputs_parse` test uses): it decodes to the A-button
sample with X = -10 (the signed byte at bit offset 16) and Y = 55 (the
signed top byte), and re-encodes to the same word. -/
theorem claim_C8_input_word_example :
    Input.fromU32 0x37F60080 = sampleInput ∧
    Input.toU32 sampleInput = 0x37F60080 := by decide

/-- **C9** (code behaviour): parsing stops at the first invalid field, but
the error value identifies no location: a non-zero byte inside the first
reserved region (offset 0x16) produces the bare `ReservedNotZero`
constructor — `m64.rs`'s variant carries no offset — and a non-UTF-8 text
region produces the bare `InvalidString`, with no field name.  `error.rs`
declares `ReservedNotZero(usize)` / `InvalidString(FieldName)` and the
tests `invalid_reserved` / `invalid_utf8` expect offset `0x16` and field
`RomInternalName` in the message, but `from_u8_array` uses its own
payload-free variants. -/
theorem claim_C9_error_payload :
    M64.from_u8_array reservedBadBuf = .error .ReservedNotZero ∧
    M64.from_u8_array utf8BadBuf = .error .InvalidString :=
  ⟨rfl, rfl⟩

set_option maxHeartbeats 2000000 in
/-- **C10**: decode never cross-validates the header's `input_frames`
count against the trailing data.  Whenever a buffer decodes to an M64
value with no samples (i.e. it is exactly a valid 1024-byte header),
appending any trailing region whose length is a multiple of 4 yields a
buffer that still decodes, to the same header fields — `input_frames`
preserved verbatim, with no hypothesis relating it to the trailing
length — and with exactly `trailing length / 4` samples, decoded from
the 4-byte words in file order. -/
theorem claim_C10_no_cross_validation (data tail : List Nat) (m : M64)
    (hok : M64.from_u8_array data = .ok m) (hin : m.inputs = [])
    (htail : tail.length % 4 = 0) :
    M64.from_u8_array (data ++ tail) =
      .ok { m with inputs := (parseInputs tail).1 } ∧
    (parseInputs tail).1.length = tail.length / 4 := by
  have F := decode_facts data m hok
  have h23 : data.drop 1024 = [] :=
    parseInputs_empty (data.drop 1024) (by rw [← F.ins]; exact hin)
      F.insRest
  have al := parseInputs_aligned tail htail
  refine ⟨?_, al.2⟩
  have A_sig : data ++ tail = data.take 4 ++ (data.drop 4 ++ tail) := by
    rw [← List.append_assoc, List.take_append_drop]
  have A_ver : data.drop 4 ++ tail =
      (data.drop 4).take 4 ++ (data.drop 8 ++ tail) := by
    have h : (data.drop 4).drop 4 = data.drop 8 := by
      simp [List.drop_drop]
    rw [← h, ← List.append_assoc, List.take_append_drop]
  have A_uid : data.drop 8 ++ tail =
      (data.drop 8).take 4 ++ (data.drop 12 ++ tail) := by
    have h : (data.drop 8).drop 4 = data.drop 12 := by
      simp [List.drop_drop]
    rw [← h, ← List.append_assoc, List.take_append_drop]
  have A_vi : data.drop 12 ++ tail =
      (data.drop 12).take 4 ++ (data.drop 16 ++ tail) := by
    have h : (data.drop 12).drop 4 = data.drop 16 := by
      simp [List.drop_drop]
    rw [← h, ← List.append_assoc, List.take_append_drop]
  have A_rr : data.drop 16 ++ tail =
      (data.drop 16).take 4 ++ (data.drop 20 ++ tail) := by
    have h : (data.drop 16).drop 4 = data.drop 20 := by
      simp [List.drop_drop]
    rw [← h, ← List.append_assoc, List.take_append_drop]
  have A_fps : data.drop 20 ++ tail =
      (data.drop 20).take 1 ++ (data.drop 21 ++ tail) := by
    have h : (data.drop 20).drop 1 = data.drop 21 := by
      simp [List.drop_drop]
    rw [← h, ← List.append_assoc, List.take_append_drop]
  have A_cc : data.drop 21 ++ tail =
      (data.drop 21).take 1 ++ (data.drop 22 ++ tail) := by
    have h : (data.drop 21).drop 1 = data.drop 22 := by
      simp [List.drop_drop]
    rw [← h, ← List.append_assoc, List.take_append_drop]
  have A_z1 : data.drop 22 ++ tail =
      (data.drop 22).take 2 ++ (data.drop 24 ++ tail) := by
    have h : (data.drop 22).drop 2 = data.drop 24 := by
      simp [List.drop_drop]
    rw [← h, ← List.append_assoc, List.take_append_drop]
  have A_ifr : data.drop 24 ++ tail =
      (data.drop 24).take 4 ++ (data.drop 28 ++ tail) := by
    have h : (data.drop 24).drop 4 = data.drop 28 := by
      simp [List.drop_drop]
    rw [← h, ← List.append_assoc, List.take_append_drop]
  have A_mst : data.drop 28 ++ tail =
      (data.drop 28).take 2 ++ (data.drop 30 ++ tail) := by
    have h : (data.drop 28).drop 2 = data.drop 30 := by
      simp [List.drop_drop]
    rw [← h, ← List.append_assoc, List.take_append_drop]
  have A_z2 : data.drop 30 ++ tail =
      (data.drop 30).take 2 ++ (data.drop 32 ++ tail) := by
    have h : (data.drop 30).drop 2 = data.drop 32 := by
      simp [List.drop_drop]
    rw [← h, ← List.append_assoc, List.take_append_drop]
  have A_fl : data.drop 32 ++ tail =
      (data.drop 32).take 4 ++ (data.drop 36 ++ tail) := by
    have h : (data.drop 32).drop 4 = data.drop 36 := by
      simp [List.drop_drop]
    rw [← h, ← List.append_assoc, List.take_append_drop]
  have A_z3 : data.drop 36 ++ tail =
      (data.drop 36).take 160 ++ (data.drop 196 ++ tail) := by
    have h : (data.drop 36).drop 160 = data.drop 196 := by
      simp [List.drop_drop]
    rw [← h, ← List.append_assoc, List.take_append_drop]
  have A_nm : data.drop 196 ++ tail =
      (data.drop 196).take 32 ++ (data.drop 228 ++ tail) := by
    have h : (data.drop 196).drop 32 = data.drop 228 := by
      simp [List.drop_drop]
    rw [← h, ← List.append_assoc, List.take_append_drop]
  have A_crc : data.drop 228 ++ tail =
      (data.drop 228).take 4 ++ (data.drop 232 ++ tail) := by
    have h : (data.drop 228).drop 4 = data.drop 232 := by
      simp [List.drop_drop]
    rw [← h, ← List.append_assoc, List.take_append_drop]
  have A_cco : data.drop 232 ++ tail =
      (data.drop 232).take 2 ++ (data.drop 234 ++ tail) := by
    have h : (data.drop 232).drop 2 = data.drop 234 := by
      simp [List.drop_drop]
    rw [← h, ← List.append_assoc, List.take_append_drop]
  have A_z4 : data.drop 234 ++ tail =
      (data.drop 234).take 56 ++ (data.drop 290 ++ tail) := by
    have h : (data.drop 234).drop 56 = data.drop 290 := by
      simp [List.drop_drop]
    rw [← h, ← List.append_assoc, List.take_append_drop]
  have A_vp : data.drop 290 ++ tail =
      (data.drop 290).take 64 ++ (data.drop 354 ++ tail) := by
    have h : (data.drop 290).drop 64 = data.drop 354 := by
      simp [List.drop_drop]
    rw [← h, ← List.append_assoc, List.take_append_drop]
  have A_sp : data.drop 354 ++ tail =
      (data.drop 354).take 64 ++ (data.drop 418 ++ tail) := by
    have h : (data.drop 354).drop 64 = data.drop 418 := by
      simp [List.drop_drop]
    rw [← h, ← List.append_assoc, List.take_append_drop]
  have A_ip : data.drop 418 ++ tail =
      (data.drop 418).take 64 ++ (data.drop 482 ++ tail) := by
    have h : (data.drop 418).drop 64 = data.drop 482 := by
      simp [List.drop_drop]
    rw [← h, ← List.append_assoc, List.take_append_drop]
  have A_rp : data.drop 482 ++ tail =
      (data.drop 482).take 64 ++ (data.drop 546 ++ tail) := by
    have h : (data.drop 482).drop 64 = data.drop 546 := by
      simp [List.drop_drop]
    rw [← h, ← List.append_assoc, List.take_append_drop]
  have A_au : data.drop 546 ++ tail =
      (data.drop 546).take 222 ++ (data.drop 768 ++ tail) := by
    have h : (data.drop 546).drop 222 = data.drop 768 := by
      simp [List.drop_drop]
    rw [← h, ← List.append_assoc, List.take_append_drop]
  have A_de : data.drop 768 ++ tail =
      (data.drop 768).take 256 ++ (data.drop 1024 ++ tail) := by
    have h : (data.drop 768).drop 256 = data.drop 1024 := by
      simp [List.drop_drop]
    rw [← h, ← List.append_assoc, List.take_append_drop]
  have A_fin : data.drop 1024 ++ tail = tail := by
    rw [h23]
    rfl
  have f_sig : (fun c => if c = magic then Except.ok () else
      Except.error (M64ParseError.InvalidFileSignature c))
      (data.take 4) = Except.ok () := by simp [F.sig]
  have f_ver : (fun c => if fromLe c = 3 then Except.ok () else
      Except.error (M64ParseError.InvalidVersion (fromLe c)))
      ((data.drop 4).take 4) = Except.ok () := by simp [F.ver]
  have f_z1 : (fun c => if c.all (· = 0) then Except.ok () else
      Except.error M64ParseError.ReservedNotZero)
      ((data.drop 22).take 2) = Except.ok () := by
    simp only [F.z1, if_true]
  have f_z2 : (fun c => if c.all (· = 0) then Except.ok () else
      Except.error M64ParseError.ReservedNotZero)
      ((data.drop 30).take 2) = Except.ok () := by
    simp only [F.z2, if_true]
  have f_z3 : (fun c => if c.all (· = 0) then Except.ok () else
      Except.error M64ParseError.ReservedNotZero)
      ((data.drop 36).take 160) = Except.ok () := by
    simp only [F.z3, if_true]
  have f_z4 : (fun c => if c.all (· = 0) then Except.ok () else
      Except.error M64ParseError.ReservedNotZero)
      ((data.drop 234).take 56) = Except.ok () := by
    simp only [F.z4, if_true]
  have f_mst : (fun c => (MovieStartType.fromRepr (fromLe c)).elim
      (Except.error M64ParseError.InvalidMovieStartType) Except.ok)
      ((data.drop 28).take 2) = Except.ok m.movie_start_type := by
    show (MovieStartType.fromRepr (fromLe ((data.drop 28).take 2))).elim
      (Except.error M64ParseError.InvalidMovieStartType) Except.ok =
      Except.ok m.movie_start_type
    rw [F.mst]
    rfl
  have f_nm : (fun c => if isValidUtf8 c then Except.ok c else
      Except.error M64ParseError.InvalidString)
      ((data.drop 196).take 32) = Except.ok ((data.drop 196).take 32) := by
    simp only [F.nmUtf, if_true]
  have f_vp : (fun c => if isValidUtf8 c then Except.ok c else
      Except.error M64ParseError.InvalidString)
      ((data.drop 290).take 64) = Except.ok ((data.drop 290).take 64) := by
    simp only [F.vpUtf, if_true]
  have f_sp : (fun c => if isValidUtf8 c then Except.ok c else
      Except.error M64ParseError.InvalidString)
      ((data.drop 354).take 64) = Except.ok ((data.drop 354).take 64) := by
    simp only [F.spUtf, if_true]
  have f_ip : (fun c => if isValidUtf8 c then Except.ok c else
      Except.error M64ParseError.InvalidString)
      ((data.drop 418).take 64) = Except.ok ((data.drop 418).take 64) := by
    simp only [F.ipUtf, if_true]
  have f_rp : (fun c => if isValidUtf8 c then Except.ok c else
      Except.error M64ParseError.InvalidString)
      ((data.drop 482).take 64) = Except.ok ((data.drop 482).take 64) := by
    simp only [F.rpUtf, if_true]
  have f_au : (fun c => if isValidUtf8 c then Except.ok c else
      Except.error M64ParseError.InvalidString)
      ((data.drop 546).take 222) = Except.ok ((data.drop 546).take 222) := by
    simp only [F.auUtf, if_true]
  have f_de : (fun c => if isValidUtf8 c then Except.ok c else
      Except.error M64ParseError.InvalidString)
      ((data.drop 768).take 256) = Except.ok ((data.drop 768).take 256) := by
    simp only [F.deUtf, if_true]
  unfold M64.from_u8_array
  rw [A_sig]
  rw [pfield_consume 4 (M64ParseError.NotEnoughData 4) _ (data.take 4)
    (List.length_take_of_le F.len_sig) f_sig]
  simp only [bind_ok_reduce]
  rw [A_ver]
  rw [pfield_consume 4 (M64ParseError.NotEnoughData 4) _ ((data.drop 4).take 4)
    (List.length_take_of_le F.len_ver) f_ver]
  simp only [bind_ok_reduce]
  rw [A_uid]
  rw [pfield_consume 4 (M64ParseError.NotEnoughData 4)
    (fun c => Except.ok (fromLe c)) ((data.drop 8).take 4)
    (List.length_take_of_le F.len_uid) rfl]
  simp only [bind_ok_reduce]
  rw [A_vi]
  rw [pfield_consume 4 (M64ParseError.NotEnoughData 4)
    (fun c => Except.ok (fromLe c)) ((data.drop 12).take 4)
    (List.length_take_of_le F.len_vi) rfl]
  simp only [bind_ok_reduce]
  rw [A_rr]
  rw [pfield_consume 4 (M64ParseError.NotEnoughData 4)
    (fun c => Except.ok (fromLe c)) ((data.drop 16).take 4)
    (List.length_take_of_le F.len_rr) rfl]
  simp only [bind_ok_reduce]
  rw [A_fps]
  rw [pfield_consume 1 (M64ParseError.NotEnoughData 4)
    (fun c => Except.ok (fromLe c)) ((data.drop 20).take 1)
    (List.length_take_of_le F.len_fps) rfl]
  simp only [bind_ok_reduce]
  rw [A_cc]
  rw [pfield_consume 1 (M64ParseError.NotEnoughData 4)
    (fun c => Except.ok (fromLe c)) ((data.drop 21).take 1)
    (List.length_take_of_le F.len_cc) rfl]
  simp only [bind_ok_reduce]
  rw [A_z1]
  rw [pfield_consume 2 (M64ParseError.NotEnoughData 2) _ ((data.drop 22).take 2)
    (List.length_take_of_le F.len_z1) f_z1]
  simp only [bind_ok_reduce]
  rw [A_ifr]
  rw [pfield_consume 4 (M64ParseError.NotEnoughData 4)
    (fun c => Except.ok (fromLe c)) ((data.drop 24).take 4)
    (List.length_take_of_le F.len_ifr) rfl]
  simp only [bind_ok_reduce]
  rw [A_mst]
  rw [pfield_consume 2 (M64ParseError.NotEnoughData 2) _ ((data.drop 28).take 2)
    (List.length_take_of_le F.len_mst) f_mst]
  simp only [bind_ok_reduce]
  rw [A_z2]
  rw [pfield_consume 2 (M64ParseError.NotEnoughData 4) _ ((data.drop 30).take 2)
    (List.length_take_of_le F.len_z2) f_z2]
  simp only [bind_ok_reduce]
  rw [A_fl]
  rw [pfield_consume 4 (M64ParseError.NotEnoughData 4)
    (fun c => Except.ok (Flags.from_u32 (fromLe c))) ((data.drop 32).take 4)
    (List.length_take_of_le F.len_fl) rfl]
  simp only [bind_ok_reduce]
  rw [A_z3]
  rw [pfield_consume 160 (M64ParseError.NotEnoughData 4) _ ((data.drop 36).take 160)
    (List.length_take_of_le F.len_z3) f_z3]
  simp only [bind_ok_reduce]
  rw [A_nm]
  rw [pfield_consume 32 (M64ParseError.NotEnoughData 32) _ ((data.drop 196).take 32)
    (List.length_take_of_le F.len_nm) f_nm]
  simp only [bind_ok_reduce]
  rw [A_crc]
  rw [pfield_consume 4 (M64ParseError.NotEnoughData 4)
    (fun c => Except.ok (fromLe c)) ((data.drop 228).take 4)
    (List.length_take_of_le F.len_crc) rfl]
  simp only [bind_ok_reduce]
  rw [A_cco]
  rw [pfield_consume 2 (M64ParseError.NotEnoughData 2)
    (fun c => Except.ok (fromLe c)) ((data.drop 232).take 2)
    (List.length_take_of_le F.len_cco) rfl]
  simp only [bind_ok_reduce]
  rw [A_z4]
  rw [pfield_consume 56 (M64ParseError.NotEnoughData 56) _ ((data.drop 234).take 56)
    (List.length_take_of_le F.len_z4) f_z4]
  simp only [bind_ok_reduce]
  rw [A_vp]
  rw [pfield_consume 64 (M64ParseError.NotEnoughData 64) _ ((data.drop 290).take 64)
    (List.length_take_of_le F.len_vp) f_vp]
  simp only [bind_ok_reduce]
  rw [A_sp]
  rw [pfield_consume 64 (M64ParseError.NotEnoughData 64) _ ((data.drop 354).take 64)
    (List.length_take_of_le F.len_sp) f_sp]
  simp only [bind_ok_reduce]
  rw [A_ip]
  rw [pfield_consume 64 (M64ParseError.NotEnoughData 64) _ ((data.drop 418).take 64)
    (List.length_take_of_le F.len_ip) f_ip]
  simp only [bind_ok_reduce]
  rw [A_rp]
  rw [pfield_consume 64 (M64ParseError.NotEnoughData 64) _ ((data.drop 482).take 64)
    (List.length_take_of_le F.len_rp) f_rp]
  simp only [bind_ok_reduce]
  rw [A_au]
  rw [pfield_consume 222 (M64ParseError.NotEnoughData 64) _ ((data.drop 546).take 222)
    (List.length_take_of_le F.len_au) f_au]
  simp only [bind_ok_reduce]
  rw [A_de]
  rw [pfield_consume 256 (M64ParseError.NotEnoughData 64) _ ((data.drop 768).take 256)
    (List.length_take_of_le F.len_de) f_de]
  simp only [bind_ok_reduce]
  rw [A_fin]
  simp only [al.1, List.isEmpty_nil, if_true]
  rw [F.uid, F.vi, F.rr, F.fps, F.cc, F.ifr, F.fl, F.nm, F.crc, F.cco,
    F.vp, F.sp, F.ip, F.rp, F.au, F.de]

theorem claim_C10_witness :
    M64.from_u8_array (defaultHeaderBytes ++ [0, 0, 0, 0]) =
      .ok { defaultM64 with inputs := (parseInputs [0, 0, 0, 0]).1 } ∧
    (parseInputs [0, 0, 0, 0]).1.length =
      ([0, 0, 0, 0] : List Nat).length / 4 :=
  claim_C10_no_cross_validation defaultHeaderBytes [0, 0, 0, 0] defaultM64
    rfl rfl (by decide)

end Mupen64
